import Mathlib

/-!
# Verification of `tls13_misc.c` (CycloneSSL, TLS 1.3 helper functions)

Shallow embedding of the TLS 1.3 helper routines of `src/tls13_misc.c`:
group-support predicates, duplicate key-share detection, key-share
generation, PSK binder computation, the HelloRetryRequest transcript
transformation, and CertificateVerify signature generation/verification.

Modelling conventions:
* Machine bytes are `Nat` values (byte lists are `List Nat`); 16/24-bit
  big-endian fields are read/written explicitly.
* `error_t` is the inductive `ErrorT`.
* A running hash context is the list of bytes absorbed so far; `final`
  applies the abstract compression function `HashAlgo.compute`.
* Compile-time `#if` feature gates become `Bool` fields of `TlsConfig`.
* Cryptographic primitives living in other CycloneSSL/CycloneCrypto files
  (HKDF, HMAC, the RSA/ECDSA/EdDSA sign/verify routines, the curve and
  FFDHE registries) are abstract fields of `TlsPrims`, universally
  quantified in the theorems.
* Heap allocation (`tlsAllocMem`) is abstracted as always succeeding; the
  `ERROR_OUT_OF_MEMORY` paths are therefore not modelled.
-/

namespace Tls13

/-- The `error_t` status codes that appear in `tls13_misc.c`.  `otherError`
stands for any further code propagated from an external primitive. -/
inductive ErrorT where
  | NO_ERROR
  | ERROR_FAILURE
  | ERROR_INVALID_PARAMETER
  | ERROR_INVALID_LENGTH
  | ERROR_OUT_OF_MEMORY
  | ERROR_DECODING_FAILED
  | ERROR_ILLEGAL_PARAMETER
  | ERROR_UNSUPPORTED_SIGNATURE_ALGO
  | ERROR_INVALID_SIGNATURE
  | ERROR_HANDSHAKE_FAILED
  | otherError (code : Nat)
  deriving DecidableEq, Repr

/-- `TLS_CONNECTION_END_CLIENT` / `TLS_CONNECTION_END_SERVER`. -/
inductive ConnectionEnd where
  | client
  | server
  deriving DecidableEq, Repr

/-- The `TlsCertificateType` values consulted by `tls13VerifySignature`.
`other` stands for any further certificate type. -/
inductive TlsCertType where
  | rsaSign
  | rsaPssSign
  | ecdsaSign
  | ed25519Sign
  | ed448Sign
  | other (v : Nat)
  deriving DecidableEq, Repr

/-- The `TlsSignatureAlgo` values consulted by `tls13GenerateSignature`
(`context->signAlgo`).  `other` stands for any further value. -/
inductive SignAlgo where
  | rsaPssRsaeSha256
  | rsaPssRsaeSha384
  | rsaPssRsaeSha512
  | rsaPssPssSha256
  | rsaPssPssSha384
  | rsaPssPssSha512
  | ecdsa
  | ed25519
  | ed448
  | other (v : Nat)
  deriving DecidableEq, Repr

/-- A hash algorithm descriptor (`HashAlgo` in CycloneCrypto): the digest
size and the one-shot compression of an absorbed byte list, together with
the guarantee that the digest has the declared size. -/
structure HashAlgo where
  digestSize : Nat
  compute : List Nat → List Nat
  compute_len : ∀ m, (compute m).length = digestSize

/-- Read a 16-bit big-endian quantity from two bytes (`ntohs` applied to a
`uint16_t` wire field). -/
def readU16 (a b : Nat) : Nat := a * 256 + b

/-- Serialize a 16-bit quantity big-endian (`htons`/`HTONS`). -/
def u16be (x : Nat) : List Nat := [x / 256 % 256, x % 256]

/-- Serialize a 24-bit quantity big-endian (`STORE24BE`). -/
def u24be (x : Nat) : List Nat := [x / 65536 % 256, x / 256 % 256, x % 256]

/-- ASCII bytes of a string literal (the `memcpy`ed context strings). -/
def strBytes (s : String) : List Nat := s.data.map Char.toNat

/-! ### Named group, signature scheme and hash identifier constants

Numeric values from the TLS registries used by `tls13_misc.h`/`tls.h`. -/

def TLS_GROUP_SECP224R1 : Nat := 21
def TLS_GROUP_SECP256R1 : Nat := 23
def TLS_GROUP_SECP384R1 : Nat := 24
def TLS_GROUP_SECP521R1 : Nat := 25
def TLS_GROUP_ECDH_X25519 : Nat := 29
def TLS_GROUP_ECDH_X448 : Nat := 30
def TLS_GROUP_FFDHE2048 : Nat := 256
def TLS_GROUP_FFDHE3072 : Nat := 257
def TLS_GROUP_FFDHE4096 : Nat := 258
def TLS_GROUP_FFDHE6144 : Nat := 259
def TLS_GROUP_FFDHE8192 : Nat := 260

def TLS_SIGN_SCHEME_RSA_PSS_RSAE_SHA256 : Nat := 0x0804
def TLS_SIGN_SCHEME_RSA_PSS_RSAE_SHA384 : Nat := 0x0805
def TLS_SIGN_SCHEME_RSA_PSS_RSAE_SHA512 : Nat := 0x0806
def TLS_SIGN_SCHEME_RSA_PSS_PSS_SHA256 : Nat := 0x0809
def TLS_SIGN_SCHEME_RSA_PSS_PSS_SHA384 : Nat := 0x080A
def TLS_SIGN_SCHEME_RSA_PSS_PSS_SHA512 : Nat := 0x080B
def TLS_SIGN_SCHEME_ECDSA_SECP256R1_SHA256 : Nat := 0x0403
def TLS_SIGN_SCHEME_ECDSA_SECP384R1_SHA384 : Nat := 0x0503
def TLS_SIGN_SCHEME_ECDSA_SECP521R1_SHA512 : Nat := 0x0603
def TLS_SIGN_SCHEME_ED25519 : Nat := 0x0807
def TLS_SIGN_SCHEME_ED448 : Nat := 0x0808

def TLS_HASH_ALGO_SHA256 : Nat := 4
def TLS_HASH_ALGO_SHA384 : Nat := 5
def TLS_HASH_ALGO_SHA512 : Nat := 6

def TLS_TYPE_CLIENT_HELLO : Nat := 1
def TLS_TYPE_MESSAGE_HASH : Nat := 254

/-- Compile-time feature gates of `tls13_misc.c` (`#if` blocks). -/
structure TlsConfig where
  /-- `TLS13_ECDHE_KE_SUPPORT == ENABLED || TLS13_PSK_ECDHE_KE_SUPPORT == ENABLED` -/
  ecdheKeSupport : Bool
  /-- `TLS13_DHE_KE_SUPPORT == ENABLED || TLS13_PSK_DHE_KE_SUPPORT == ENABLED` -/
  dheKeSupport : Bool
  /-- `TLS_FFDHE_SUPPORT == ENABLED` -/
  ffdheSupport : Bool
  /-- `TLS_RSA_PSS_SIGN_SUPPORT == ENABLED` -/
  rsaPssSignSupport : Bool
  /-- `TLS_ECDSA_SIGN_SUPPORT == ENABLED` -/
  ecdsaSignSupport : Bool
  /-- `TLS_EDDSA_SIGN_SUPPORT == ENABLED` -/
  eddsaSignSupport : Bool
  /-- `TLS_ED25519_SUPPORT == ENABLED` -/
  ed25519Support : Bool
  /-- `TLS_ED448_SUPPORT == ENABLED` -/
  ed448Support : Bool
  /-- `DTLS_SUPPORT == ENABLED` -/
  dtlsSupport : Bool

/-- External collaborators consumed by `tls13_misc.c` and living in other
translation units (registries, HKDF/HMAC, signing primitives, randomness).
They are kept abstract; theorems quantify over them. -/
structure TlsPrims where
  /-- `tlsGetHashAlgo(id) != NULL`, with the descriptor it yields. -/
  tlsGetHashAlgo : Nat → Option HashAlgo
  /-- `tlsGetCurveInfo(context, group) != NULL`. -/
  tlsGetCurveInfoSome : Nat → Bool
  /-- `tlsGetFfdheGroup(context, group) != NULL`. -/
  tlsGetFfdheGroupSome : Nat → Bool
  /-- `ecLoadDomainParameters` status for a group. -/
  ecLoadDomainParameters : Nat → ErrorT
  /-- `ecdhGenerateKeyPair` status and resulting abstract ECDH state. -/
  ecdhGenerateKeyPair : ErrorT × Nat
  /-- `tlsLoadFfdheParameters` status for a group. -/
  tlsLoadFfdheParameters : Nat → ErrorT
  /-- `dhGenerateKeyPair` status and resulting abstract DH state. -/
  dhGenerateKeyPair : ErrorT × Nat
  /-- `hkdfExtract(hash, ikm, salt)`: status and pseudorandom key. -/
  hkdfExtract : HashAlgo → List Nat → List Nat → ErrorT × List Nat
  /-- `tls13HkdfExpandLabel(hash, secret, label, context, outLen)`. -/
  hkdfExpandLabel : HashAlgo → List Nat → List Nat → List Nat → Nat → ErrorT × List Nat
  /-- `hmacCompute(hash, key, msg)`: status and MAC value. -/
  hmacCompute : HashAlgo → List Nat → List Nat → ErrorT × List Nat
  /-- `pemImportRsaPrivateKey` status for the local certificate key. -/
  pemImportRsaPrivateKey : ErrorT
  /-- `rsassaPssSign(hash, digest)`: status and signature value. -/
  rsassaPssSign : HashAlgo → List Nat → ErrorT × List Nat
  /-- `tlsGenerateEcdsaSignature(digest)`: status and signature value. -/
  tlsGenerateEcdsaSignature : List Nat → ErrorT × List Nat
  /-- `tlsGenerateEddsaSignature(message)`: status and signature value. -/
  tlsGenerateEddsaSignature : List Nat → ErrorT × List Nat
  /-- `rsassaPssVerify(hash, digest, signature)`: does it accept? -/
  rsassaPssVerify : HashAlgo → List Nat → List Nat → Bool
  /-- `tlsVerifyEcdsaSignature(digest, signature)`: does it accept? -/
  tlsVerifyEcdsaSignature : List Nat → List Nat → Bool
  /-- `tlsVerifyEddsaSignature(message, signature)`: does it accept? -/
  tlsVerifyEddsaSignature : List Nat → List Nat → Bool

/-- The slice of `TlsContext` consulted and mutated by `tls13_misc.c`.
Nullable pointers are `Option`s; the running transcript hash context is the
byte list absorbed so far (or `none` when `handshakeHashContext == NULL`). -/
structure TlsContext where
  entity : ConnectionEnd
  /-- `context->cipherSuite.prfHashAlgo` (`NULL` when unresolved). -/
  prfHashAlgo : Option HashAlgo
  namedGroup : Nat
  handshakeHashContext : Option (List Nat)
  /-- `context->secret` (early-secret scratch buffer). -/
  secret : List Nat
  /-- `context->psk` with its length (`none` when the pointer is `NULL`). -/
  psk : Option (List Nat)
  /-- `context->pskIdentity != NULL`. -/
  pskIdentitySet : Bool
  pskHashAlgo : Nat
  ticketPsk : List Nat
  /-- `context->ticket` with `context->ticketLen` (`none` when `NULL`). -/
  ticket : Option (List Nat)
  ticketHashAlgo : Nat
  /-- `context->transportProtocol == TLS_TRANSPORT_PROTOCOL_DATAGRAM`. -/
  isDatagram : Bool
  txMsgSeq : Nat
  peerCertType : TlsCertType
  /-- `context->peerEcParams.name` (`NULL` when absent). -/
  peerEcParamsName : Option String
  signAlgo : SignAlgo
  signHashAlgo : Nat
  /-- `context->cert->namedCurve`. -/
  certNamedCurve : Nat
  /-- Abstract token for `context->ecdhContext`. -/
  ecdhState : Nat
  /-- Abstract token for `context->dhContext`. -/
  dhState : Nat

/-! ### Group-support predicates (`tls13IsEcdheGroupSupported`,
`tls13IsFfdheGroupSupported`, `tls13IsGroupSupported`) -/

/-- `tls13IsEcdheGroupSupported`: membership in the fixed six-curve set,
intersected with the runtime curve registry; `FALSE` outright when the
ECDHE feature gates are compiled out. -/
def tls13IsEcdheGroupSupported (cfg : TlsConfig) (prims : TlsPrims)
    (namedGroup : Nat) : Bool :=
  cfg.ecdheKeSupport &&
    (namedGroup == TLS_GROUP_SECP224R1 ||
     namedGroup == TLS_GROUP_SECP256R1 ||
     namedGroup == TLS_GROUP_SECP384R1 ||
     namedGroup == TLS_GROUP_SECP521R1 ||
     namedGroup == TLS_GROUP_ECDH_X25519 ||
     namedGroup == TLS_GROUP_ECDH_X448) &&
    prims.tlsGetCurveInfoSome namedGroup

/-- `tls13IsFfdheGroupSupported`: membership in the fixed five-group set,
intersected with the FFDHE registry; `FALSE` outright when the DHE feature
gates are compiled out, and also when `TLS_FFDHE_SUPPORT` is disabled. -/
def tls13IsFfdheGroupSupported (cfg : TlsConfig) (prims : TlsPrims)
    (namedGroup : Nat) : Bool :=
  cfg.dheKeSupport &&
    (namedGroup == TLS_GROUP_FFDHE2048 ||
     namedGroup == TLS_GROUP_FFDHE3072 ||
     namedGroup == TLS_GROUP_FFDHE4096 ||
     namedGroup == TLS_GROUP_FFDHE6144 ||
     namedGroup == TLS_GROUP_FFDHE8192) &&
    (cfg.ffdheSupport && prims.tlsGetFfdheGroupSome namedGroup)

/-- `tls13IsGroupSupported`: the if/else-if/else cascade over the two class
predicates. -/
def tls13IsGroupSupported (cfg : TlsConfig) (prims : TlsPrims)
    (namedGroup : Nat) : Bool :=
  if tls13IsEcdheGroupSupported cfg prims namedGroup then
    true
  else if tls13IsFfdheGroupSupported cfg prims namedGroup then
    true
  else
    false

/-- C9: for every configuration, registry state and 16-bit named group, the
ECDHE and FFDHE support predicates are never simultaneously true, and
`tls13IsGroupSupported` is exactly their logical OR. -/
theorem tls13_group_partition (cfg : TlsConfig) (prims : TlsPrims) (g : Nat) :
    ¬(tls13IsEcdheGroupSupported cfg prims g = true ∧
      tls13IsFfdheGroupSupported cfg prims g = true) ∧
    tls13IsGroupSupported cfg prims g =
      (tls13IsEcdheGroupSupported cfg prims g ||
       tls13IsFfdheGroupSupported cfg prims g) := by
  constructor
  · rintro ⟨he, hf⟩
    simp only [tls13IsEcdheGroupSupported, tls13IsFfdheGroupSupported,
      Bool.and_eq_true, Bool.or_eq_true, beq_iff_eq,
      TLS_GROUP_SECP224R1, TLS_GROUP_SECP256R1, TLS_GROUP_SECP384R1,
      TLS_GROUP_SECP521R1, TLS_GROUP_ECDH_X25519, TLS_GROUP_ECDH_X448,
      TLS_GROUP_FFDHE2048, TLS_GROUP_FFDHE3072, TLS_GROUP_FFDHE4096,
      TLS_GROUP_FFDHE6144, TLS_GROUP_FFDHE8192] at he hf
    omega
  · unfold tls13IsGroupSupported
    by_cases he : tls13IsEcdheGroupSupported cfg prims g
    · simp [he]
    · by_cases hf : tls13IsFfdheGroupSupported cfg prims g
      · simp [he, hf]
      · simp [he, hf]

/-! ### Duplicate key-share detection (`tls13CheckDuplicateKeyShare`)

The C routine reads no mutable state: it is a pure function of the probe
group and the input bytes, which the embedding makes literal. -/

/-- `tls13CheckDuplicateKeyShare`: walk the length-delimited sequence of
`Tls13KeyShareEntry` records (`group:u16, length:u16, key_exchange`),
failing `ERROR_DECODING_FAILED` on a truncated record, failing
`ERROR_ILLEGAL_PARAMETER` when a record's group equals the probe group, and
succeeding once the list is exhausted. -/
def tls13CheckDuplicateKeyShare (namedGroup : Nat) (p : List Nat) : ErrorT :=
  if h0 : p = [] then
    ErrorT.NO_ERROR
  else if p.length < 4 then
    ErrorT.ERROR_DECODING_FAILED
  else if p.length < 4 + readU16 (p.getD 2 0) (p.getD 3 0) then
    ErrorT.ERROR_DECODING_FAILED
  else if readU16 (p.getD 0 0) (p.getD 1 0) = namedGroup then
    ErrorT.ERROR_ILLEGAL_PARAMETER
  else
    tls13CheckDuplicateKeyShare namedGroup
      ((p.drop 4).drop (readU16 (p.getD 2 0) (p.getD 3 0)))
termination_by p.length
decreasing_by
  simp only [List.length_drop]
  have h := List.length_pos.mpr h0
  omega

/-- Wire encoding of one `Tls13KeyShareEntry`: 16-bit group, 16-bit
key-exchange length, then the key-exchange bytes. -/
def encodeKeyShareEntry (e : Nat × List Nat) : List Nat :=
  u16be e.1 ++ u16be e.2.length ++ e.2

/-- Wire encoding of a sequence of `Tls13KeyShareEntry` records. -/
def encodeKeyShareEntries (es : List (Nat × List Nat)) : List Nat :=
  (es.map encodeKeyShareEntry).flatten

/-- A key-share entry whose fields fit their 16-bit wire representation. -/
def keyShareEntryBounded (e : Nat × List Nat) : Prop :=
  e.1 < 65536 ∧ e.2.length < 65536

/-- A byte sequence whose leading record is truncated: fewer than the
4 header bytes remain, or fewer bytes than the declared key-exchange
length remain after the header. -/
def keyShareEntryTruncated (p : List Nat) : Bool :=
  match p with
  | [] => false
  | _ :: _ :: l1 :: l2 :: rest => decide (rest.length < readU16 l1 l2)
  | _ => true

theorem readU16_u16be (x : Nat) (hx : x < 65536) :
    readU16 (x / 256 % 256) (x % 256) = x := by
  unfold readU16
  omega

instance (e : Nat × List Nat) : Decidable (keyShareEntryBounded e) :=
  inferInstanceAs (Decidable (e.1 < 65536 ∧ e.2.length < 65536))

theorem checkDup_nil (g : Nat) : tls13CheckDuplicateKeyShare g [] = ErrorT.NO_ERROR := by
  rw [tls13CheckDuplicateKeyShare]
  simp

theorem checkDup_cons (g b0 b1 b2 b3 : Nat) (rest : List Nat) :
    tls13CheckDuplicateKeyShare g (b0 :: b1 :: b2 :: b3 :: rest) =
      if rest.length < readU16 b2 b3 then ErrorT.ERROR_DECODING_FAILED
      else if readU16 b0 b1 = g then ErrorT.ERROR_ILLEGAL_PARAMETER
      else tls13CheckDuplicateKeyShare g (rest.drop (readU16 b2 b3)) := by
  rw [tls13CheckDuplicateKeyShare]
  rw [dif_neg (by simp)]
  rw [if_neg (by simp only [List.length_cons]; omega)]
  rw [show (b0 :: b1 :: b2 :: b3 :: rest).getD 2 0 = b2 from rfl]
  rw [show (b0 :: b1 :: b2 :: b3 :: rest).getD 3 0 = b3 from rfl]
  rw [show (b0 :: b1 :: b2 :: b3 :: rest).getD 0 0 = b0 from rfl]
  rw [show (b0 :: b1 :: b2 :: b3 :: rest).getD 1 0 = b1 from rfl]
  rw [show (b0 :: b1 :: b2 :: b3 :: rest).drop 4 = rest from rfl]
  by_cases hc : rest.length < readU16 b2 b3
  · rw [if_pos (by simp only [List.length_cons]; omega), if_pos hc]
  · rw [if_neg (by simp only [List.length_cons]; omega), if_neg hc]

theorem checkDup_cons_ne (g : Nat) (e : Nat × List Nat) (tail : List Nat)
    (hb : keyShareEntryBounded e) (hne : e.1 ≠ g) :
    tls13CheckDuplicateKeyShare g (encodeKeyShareEntry e ++ tail) =
      tls13CheckDuplicateKeyShare g tail := by
  obtain ⟨hg, hl⟩ := hb
  rw [encodeKeyShareEntry, u16be, u16be]
  simp only [List.cons_append, List.nil_append]
  rw [checkDup_cons]
  rw [readU16_u16be _ hl, readU16_u16be _ hg]
  rw [if_neg (by simp only [List.length_append]; omega), if_neg hne]
  rw [List.drop_left]

theorem checkDup_cons_eq (g : Nat) (e : Nat × List Nat) (tail : List Nat)
    (hb : keyShareEntryBounded e) (heq : e.1 = g) :
    tls13CheckDuplicateKeyShare g (encodeKeyShareEntry e ++ tail) =
      ErrorT.ERROR_ILLEGAL_PARAMETER := by
  obtain ⟨hg, hl⟩ := hb
  rw [encodeKeyShareEntry, u16be, u16be]
  simp only [List.cons_append, List.nil_append]
  rw [checkDup_cons]
  rw [readU16_u16be _ hl, readU16_u16be _ hg]
  rw [if_neg (by simp only [List.length_append]; omega), if_pos heq]

theorem encodeKeyShareEntries_cons (e : Nat × List Nat) (es : List (Nat × List Nat)) :
    encodeKeyShareEntries (e :: es) =
      encodeKeyShareEntry e ++ encodeKeyShareEntries es := by
  simp [encodeKeyShareEntries]

theorem checkDup_append_noMatch (g : Nat) (es : List (Nat × List Nat))
    (suffix : List Nat) (hb : ∀ e ∈ es, keyShareEntryBounded e)
    (hne : ∀ e ∈ es, e.1 ≠ g) :
    tls13CheckDuplicateKeyShare g (encodeKeyShareEntries es ++ suffix) =
      tls13CheckDuplicateKeyShare g suffix := by
  induction es with
  | nil => simp [encodeKeyShareEntries]
  | cons e es ih =>
      rw [encodeKeyShareEntries_cons, List.append_assoc]
      rw [checkDup_cons_ne g e _ (hb e (List.mem_cons_self e es))
        (hne e (List.mem_cons_self e es))]
      exact ih (fun x hx => hb x (List.mem_cons_of_mem e hx))
        (fun x hx => hne x (List.mem_cons_of_mem e hx))

theorem checkDup_truncated (g : Nat) (p : List Nat)
    (hp : keyShareEntryTruncated p = true) :
    tls13CheckDuplicateKeyShare g p = ErrorT.ERROR_DECODING_FAILED := by
  rcases p with _ | ⟨a, _ | ⟨b, _ | ⟨c, _ | ⟨d, rest⟩⟩⟩⟩
  · simp [keyShareEntryTruncated] at hp
  · rw [tls13CheckDuplicateKeyShare]
    rw [dif_neg (by simp), if_pos (by simp)]
  · rw [tls13CheckDuplicateKeyShare]
    rw [dif_neg (by simp), if_pos (by simp)]
  · rw [tls13CheckDuplicateKeyShare]
    rw [dif_neg (by simp), if_pos (by simp)]
  · simp only [keyShareEntryTruncated, decide_eq_true_eq] at hp
    rw [checkDup_cons]
    rw [if_pos hp]

/-- C5: for every probe group and byte sequence, `tls13CheckDuplicateKeyShare`
walks the key-share list and (i) succeeds on a fully well-formed list none
of whose groups equals the probe group, (ii) fails `ERROR_ILLEGAL_PARAMETER`
on a well-formed list containing the probe group, and (iii) fails
`ERROR_DECODING_FAILED` when, after well-formed non-matching records, a
record's header or declared key-exchange length exceeds the remaining
bytes.  The routine consumes no state: in the embedding it is a pure
function of the probe group and the bytes. -/
theorem tls13CheckDuplicateKeyShare_spec :
    (∀ g es, (∀ e ∈ es, keyShareEntryBounded e) → (∀ e ∈ es, e.1 ≠ g) →
      tls13CheckDuplicateKeyShare g (encodeKeyShareEntries es) =
        ErrorT.NO_ERROR) ∧
    (∀ g es, (∀ e ∈ es, keyShareEntryBounded e) → (∃ e ∈ es, e.1 = g) →
      tls13CheckDuplicateKeyShare g (encodeKeyShareEntries es) =
        ErrorT.ERROR_ILLEGAL_PARAMETER) ∧
    (∀ g es junk, (∀ e ∈ es, keyShareEntryBounded e) → (∀ e ∈ es, e.1 ≠ g) →
      keyShareEntryTruncated junk = true →
      tls13CheckDuplicateKeyShare g (encodeKeyShareEntries es ++ junk) =
        ErrorT.ERROR_DECODING_FAILED) := by
  refine ⟨?_, ?_, ?_⟩
  · intro g es hb hne
    have h := checkDup_append_noMatch g es [] hb hne
    rw [List.append_nil] at h
    rw [h, checkDup_nil]
  · intro g es hb hm
    induction es with
    | nil => simp at hm
    | cons e es ih =>
        rw [encodeKeyShareEntries_cons]
        by_cases he : e.1 = g
        · rw [checkDup_cons_eq g e _ (hb e (List.mem_cons_self e es)) he]
        · rw [checkDup_cons_ne g e _ (hb e (List.mem_cons_self e es)) he]
          apply ih (fun x hx => hb x (List.mem_cons_of_mem e hx))
          rcases hm with ⟨x, hx, hxg⟩
          rcases List.mem_cons.mp hx with h1 | h2
          · exact absurd (h1 ▸ hxg) he
          · exact ⟨x, h2, hxg⟩
  · intro g es junk hb hne hj
    rw [checkDup_append_noMatch g es junk hb hne]
    exact checkDup_truncated g junk hj

/-- Witness for C5 at concrete inputs: a duplicate offer for group 29, a
truncated trailing record, and a clean list. -/
theorem tls13CheckDuplicateKeyShare_spec_witness :
    tls13CheckDuplicateKeyShare 29 (encodeKeyShareEntries [(23, [7]), (29, [])]) =
      ErrorT.ERROR_ILLEGAL_PARAMETER ∧
    tls13CheckDuplicateKeyShare 29 (encodeKeyShareEntries [(23, [7])] ++ [0, 0]) =
      ErrorT.ERROR_DECODING_FAILED ∧
    tls13CheckDuplicateKeyShare 29 (encodeKeyShareEntries [(23, [7])]) =
      ErrorT.NO_ERROR :=
  ⟨tls13CheckDuplicateKeyShare_spec.2.1 29 [(23, [7]), (29, [])] (by decide)
      ⟨(29, []), by decide, rfl⟩,
   tls13CheckDuplicateKeyShare_spec.2.2 29 [(23, [7])] [0, 0] (by decide)
      (by decide) (by decide),
   tls13CheckDuplicateKeyShare_spec.1 29 [(23, [7])] (by decide) (by decide)⟩

/-! ### Key share generation (`tls13GenerateKeyShare`) -/

/-- `tls13GenerateKeyShare`: dispatch on the group class.  On the ECDHE
path, re-resolve the curve, record the group, load domain parameters and
generate an ephemeral key pair; on the FFDHE path likewise with the FFDHE
registry; otherwise fail `ERROR_ILLEGAL_PARAMETER`.  Returns the status
code together with the updated context. -/
def tls13GenerateKeyShare (cfg : TlsConfig) (prims : TlsPrims)
    (context : TlsContext) (namedGroup : Nat) : ErrorT × TlsContext :=
  if tls13IsEcdheGroupSupported cfg prims namedGroup then
    if prims.tlsGetCurveInfoSome namedGroup then
      let context := { context with namedGroup := namedGroup }
      match prims.ecLoadDomainParameters namedGroup with
      | ErrorT.NO_ERROR =>
          let (e, st) := prims.ecdhGenerateKeyPair
          (e, { context with ecdhState := st })
      | e => (e, context)
    else
      (ErrorT.ERROR_ILLEGAL_PARAMETER, context)
  else if tls13IsFfdheGroupSupported cfg prims namedGroup then
    if cfg.ffdheSupport then
      if prims.tlsGetFfdheGroupSome namedGroup then
        let context := { context with namedGroup := namedGroup }
        match prims.tlsLoadFfdheParameters namedGroup with
        | ErrorT.NO_ERROR =>
            let (e, st) := prims.dhGenerateKeyPair
            (e, { context with dhState := st })
        | e => (e, context)
      else
        (ErrorT.ERROR_ILLEGAL_PARAMETER, context)
    else
      (ErrorT.ERROR_ILLEGAL_PARAMETER, context)
  else
    (ErrorT.ERROR_ILLEGAL_PARAMETER, context)

/-- C8: a named group that is neither a supported ECDHE group nor a
supported FFDHE group makes `tls13GenerateKeyShare` fail
`ERROR_ILLEGAL_PARAMETER` and leave the context — in particular its
recorded `namedGroup` — entirely unchanged. -/
theorem tls13GenerateKeyShare_unsupported (cfg : TlsConfig) (prims : TlsPrims)
    (context : TlsContext) (g : Nat)
    (he : tls13IsEcdheGroupSupported cfg prims g = false)
    (hf : tls13IsFfdheGroupSupported cfg prims g = false) :
    tls13GenerateKeyShare cfg prims context g =
      (ErrorT.ERROR_ILLEGAL_PARAMETER, context) ∧
    (tls13GenerateKeyShare cfg prims context g).2.namedGroup =
      context.namedGroup := by
  rw [tls13GenerateKeyShare, if_neg (by simp [he]), if_neg (by simp [hf])]
  exact ⟨rfl, rfl⟩

/-- A concrete configuration with every feature gate enabled. -/
def cfgAll : TlsConfig :=
  ⟨true, true, true, true, true, true, true, true, true⟩

/-- A concrete two-byte test hash: digest is the message length mod 256
followed by the byte 1. -/
def testHash : HashAlgo where
  digestSize := 2
  compute m := [m.length % 256, 1]
  compute_len := fun _ => rfl

/-- Concrete primitives for witnesses: every registry lookup succeeds,
every derivation succeeds with small deterministic outputs. -/
def primsTest : TlsPrims where
  tlsGetHashAlgo := fun _ => some testHash
  tlsGetCurveInfoSome := fun _ => true
  tlsGetFfdheGroupSome := fun _ => true
  ecLoadDomainParameters := fun _ => ErrorT.NO_ERROR
  ecdhGenerateKeyPair := (ErrorT.NO_ERROR, 1)
  tlsLoadFfdheParameters := fun _ => ErrorT.NO_ERROR
  dhGenerateKeyPair := (ErrorT.NO_ERROR, 1)
  hkdfExtract := fun _ ikm _ => (ErrorT.NO_ERROR, 0 :: ikm)
  hkdfExpandLabel := fun _ secret label _ _ => (ErrorT.NO_ERROR, secret ++ label)
  hmacCompute := fun _ key msg => (ErrorT.NO_ERROR, key ++ msg)
  pemImportRsaPrivateKey := ErrorT.NO_ERROR
  rsassaPssSign := fun _ digest => (ErrorT.NO_ERROR, 2 :: digest)
  tlsGenerateEcdsaSignature := fun digest => (ErrorT.NO_ERROR, 3 :: digest)
  tlsGenerateEddsaSignature := fun msg => (ErrorT.NO_ERROR, [msg.length % 256])
  rsassaPssVerify := fun _ _ _ => true
  tlsVerifyEcdsaSignature := fun _ _ => true
  tlsVerifyEddsaSignature := fun _ _ => true

/-- Concrete primitives for witnesses with empty registries (no curve and
no FFDHE group enabled). -/
def primsNone : TlsPrims :=
  { primsTest with
    tlsGetCurveInfoSome := fun _ => false
    tlsGetFfdheGroupSome := fun _ => false }

/-- A concrete baseline context used by the witnesses. -/
def ctxBase : TlsContext where
  entity := ConnectionEnd.server
  prfHashAlgo := some testHash
  namedGroup := 0
  handshakeHashContext := some [5, 6]
  secret := []
  psk := some [9, 9]
  pskIdentitySet := true
  pskHashAlgo := TLS_HASH_ALGO_SHA256
  ticketPsk := [8]
  ticket := some [7]
  ticketHashAlgo := TLS_HASH_ALGO_SHA256
  isDatagram := false
  txMsgSeq := 0
  peerCertType := TlsCertType.rsaSign
  peerEcParamsName := none
  signAlgo := SignAlgo.ed25519
  signHashAlgo := TLS_HASH_ALGO_SHA256
  certNamedCurve := TLS_GROUP_SECP256R1
  ecdhState := 0
  dhState := 0

/-- Witness for C8: group 0 is in neither class, so key-share generation
fails `ERROR_ILLEGAL_PARAMETER` and the recorded group stays 0. -/
theorem tls13GenerateKeyShare_unsupported_witness :
    tls13GenerateKeyShare cfgAll primsTest ctxBase 0 =
      (ErrorT.ERROR_ILLEGAL_PARAMETER, ctxBase) ∧
    (tls13GenerateKeyShare cfgAll primsTest ctxBase 0).2.namedGroup =
      ctxBase.namedGroup :=
  tls13GenerateKeyShare_unsupported cfgAll primsTest ctxBase 0 (by decide) (by decide)

/-! ### HelloRetryRequest transcript transformation (`tls13DigestClientHello1`) -/

/-- `tls13DigestClientHello1`: fail `ERROR_FAILURE` when the transcript
hash context is missing or the negotiated hash algorithm is unresolved;
otherwise finalize the running transcript into `Hash(ClientHello1)`,
re-initialize the hash context, and absorb the synthetic handshake record
`msgType = TLS_TYPE_MESSAGE_HASH (254), length:u24 = digestSize,
body = Hash(ClientHello1)`.  Returns the status code and the new
transcript hash context.  (The synthetic record is staged in
`context->txBuffer`, which the model does not track.) -/
def tls13DigestClientHello1 (prfHashAlgo : Option HashAlgo)
    (handshakeHashContext : Option (List Nat)) :
    ErrorT × Option (List Nat) :=
  match handshakeHashContext with
  | none => (ErrorT.ERROR_FAILURE, none)
  | some s =>
      match prfHashAlgo with
      | none => (ErrorT.ERROR_FAILURE, some s)
      | some hash =>
          let digest := hash.compute s
          let message := TLS_TYPE_MESSAGE_HASH :: u24be hash.digestSize ++ digest
          (ErrorT.NO_ERROR, some (([] : List Nat) ++ message))

/-- C4: `tls13DigestClientHello1` fails `ERROR_FAILURE` when no transcript
state exists or the hash algorithm is unresolved, and otherwise replaces
the transcript with a fresh state that absorbed exactly the synthetic
record `254 ∥ digestSize:u24 ∥ Hash(ClientHello1)` — the hash of the old
state, never its literal bytes. -/
theorem tls13DigestClientHello1_spec (prf : Option HashAlgo)
    (st : Option (List Nat)) :
    (st = none → tls13DigestClientHello1 prf st = (ErrorT.ERROR_FAILURE, none)) ∧
    (∀ s, st = some s → prf = none →
      tls13DigestClientHello1 prf st = (ErrorT.ERROR_FAILURE, some s)) ∧
    (∀ s hash, st = some s → prf = some hash →
      tls13DigestClientHello1 prf st =
        (ErrorT.NO_ERROR,
         some (TLS_TYPE_MESSAGE_HASH :: u24be hash.digestSize ++ hash.compute s))) := by
  refine ⟨?_, ?_, ?_⟩
  · rintro rfl
    rfl
  · rintro s rfl rfl
    rfl
  · rintro s hash rfl rfl
    simp [tls13DigestClientHello1]

/-- Witness for C4: with the two-byte test hash and live transcript state
`[5, 6]`, the new transcript absorbed `254 ∥ 0 0 2 ∥ Hash([5, 6])` where
`Hash([5, 6]) = [2, 1]`. -/
theorem tls13DigestClientHello1_spec_witness :
    tls13DigestClientHello1 (some testHash) (some [5, 6]) =
      (ErrorT.NO_ERROR, some [254, 0, 0, 2, 2, 1]) ∧
    tls13DigestClientHello1 (some testHash) none =
      (ErrorT.ERROR_FAILURE, none) ∧
    tls13DigestClientHello1 none (some [5, 6]) =
      (ErrorT.ERROR_FAILURE, some [5, 6]) :=
  ⟨by
    have h := (tls13DigestClientHello1_spec (some testHash) (some [5, 6])).2.2
      [5, 6] testHash rfl rfl
    rw [h]
    rfl,
   (tls13DigestClientHello1_spec (some testHash) none).1 rfl,
   (tls13DigestClientHello1_spec none (some [5, 6])).2.1 [5, 6] rfl rfl⟩

/-! ### PSK binder computation (`tls13ComputePskBinder`) -/

/-- `tls13IsPskValid`: the hash algorithm associated with the PSK resolves,
the PSK is present and non-empty, and — when operating as a client — a PSK
identity is set. -/
def tls13IsPskValid (prims : TlsPrims) (context : TlsContext) : Bool :=
  if (prims.tlsGetHashAlgo context.pskHashAlgo).isSome then
    if context.psk.isSome ∧ 0 < (context.psk.getD []).length then
      if context.entity = ConnectionEnd.client then
        context.pskIdentitySet
      else
        true
    else
      false
  else
    false

/-- `tls13IsTicketValid`: the hash algorithm associated with the ticket
resolves, the ticket PSK is non-empty, and — when operating as a client —
a non-empty ticket blob is present. -/
def tls13IsTicketValid (prims : TlsPrims) (context : TlsContext) : Bool :=
  if (prims.tlsGetHashAlgo context.ticketHashAlgo).isSome then
    if 0 < context.ticketPsk.length then
      if context.entity = ConnectionEnd.client then
        if context.ticket.isSome ∧ 0 < (context.ticket.getD []).length then
          true
        else
          false
      else
        true
    else
      false
  else
    false

/-- Modelled from the spec: `tls13DeriveSecret` lives in
`tls13_key_material.c`, which is not under `src/`.  Spec section 4.3 step 6:
derive from a secret "using an expand-with-label construction", with the
given label, "empty context, output length = digest size". -/
def tls13DeriveSecret (prims : TlsPrims) (hash : HashAlgo) (secret : List Nat)
    (label : List Nat) : ErrorT × List Nat :=
  prims.hkdfExpandLabel hash secret label [] hash.digestSize

/-- Modelled from the spec: `tlsFinalizeTranscriptHash` lives in
`tls_transcript_hash.c`, which is not under `src/`.  It finalizes a scratch
copy of the running transcript digest state — leaving the live state
untouched — and yields the transcript digest ("the current transcript
digest", spec section 4.5), failing when no transcript state exists. -/
def tlsFinalizeTranscriptHash (hash : HashAlgo) (st : Option (List Nat))
    (label : List Nat) : ErrorT × List Nat :=
  match st with
  | none => (ErrorT.ERROR_FAILURE, [])
  | some s => (ErrorT.NO_ERROR, hash.compute (s ++ label))

/-- The transcript digest computed by `tls13ComputePskBinder`: the scratch
clone of the live transcript state (fresh when none exists) absorbs the
synthetic ClientHello handshake header — the DTLS variant carries the
message sequence number and fragment fields — and the first
`truncatedClientHelloLen` bytes of the ClientHello, then is finalized. -/
def pskBinderTranscriptDigest (cfg : TlsConfig) (context : TlsContext)
    (hash : HashAlgo) (clientHello : List Nat)
    (clientHelloLen truncatedClientHelloLen : Nat) : List Nat :=
  hash.compute (context.handshakeHashContext.getD [] ++
    (if cfg.dtlsSupport && context.isDatagram then
      TLS_TYPE_CLIENT_HELLO :: u24be clientHelloLen ++
        u16be context.txMsgSeq ++ u24be 0 ++ u24be clientHelloLen
    else
      TLS_TYPE_CLIENT_HELLO :: u24be clientHelloLen) ++
    clientHello.take truncatedClientHelloLen)

/-- Common tail of `tls13ComputePskBinder`: derive the finished key from
the binder key (label `"finished"`, empty context), then HMAC the
transcript digest with it. -/
def tls13ComputePskBinderFinish (prims : TlsPrims) (hash : HashAlgo)
    (context : TlsContext) (binderKey digest : List Nat) :
    ErrorT × TlsContext × Option (List Nat) :=
  let r3 := prims.hkdfExpandLabel hash binderKey (strBytes "finished") []
    hash.digestSize
  if r3.1 ≠ ErrorT.NO_ERROR then
    (r3.1, context, none)
  else
    let r4 := prims.hmacCompute hash r3.2 digest
    if r4.1 ≠ ErrorT.NO_ERROR then
      (r4.1, context, none)
    else
      (ErrorT.NO_ERROR, context, some r4.2)

/-- `tls13ComputePskBinder`: parameter checks, transcript digest over the
scratch clone, PSK/ticket selection, early-secret extraction (written into
`context->secret`), binder-key and finished-key derivation, and the final
HMAC.  Returns the status, the updated context, and the binder written to
the output buffer (`none` when the buffer must be treated as not
written). -/
def tls13ComputePskBinder (cfg : TlsConfig) (prims : TlsPrims)
    (context : TlsContext) (clientHello : List Nat)
    (clientHelloLen truncatedClientHelloLen binderLen : Nat) :
    ErrorT × TlsContext × Option (List Nat) :=
  if truncatedClientHelloLen ≥ clientHelloLen then
    (ErrorT.ERROR_INVALID_PARAMETER, context, none)
  else
    match context.prfHashAlgo with
    | none => (ErrorT.ERROR_FAILURE, context, none)
    | some hash =>
        if binderLen ≠ hash.digestSize then
          (ErrorT.ERROR_INVALID_LENGTH, context, none)
        else
          let digest := pskBinderTranscriptDigest cfg context hash clientHello
            clientHelloLen truncatedClientHelloLen
          if tls13IsPskValid prims context then
            let r1 := prims.hkdfExtract hash (context.psk.getD []) []
            let context := { context with secret := r1.2 }
            if r1.1 ≠ ErrorT.NO_ERROR then
              (r1.1, context, none)
            else
              let r2 := tls13DeriveSecret prims hash context.secret
                (strBytes "ext binder")
              if r2.1 ≠ ErrorT.NO_ERROR then
                (r2.1, context, none)
              else
                tls13ComputePskBinderFinish prims hash context r2.2 digest
          else if tls13IsTicketValid prims context then
            let r1 := prims.hkdfExtract hash context.ticketPsk []
            let context := { context with secret := r1.2 }
            if r1.1 ≠ ErrorT.NO_ERROR then
              (r1.1, context, none)
            else
              let r2 := tls13DeriveSecret prims hash context.secret
                (strBytes "res binder")
              if r2.1 ≠ ErrorT.NO_ERROR then
                (r2.1, context, none)
              else
                tls13ComputePskBinderFinish prims hash context r2.2 digest
          else
            (ErrorT.ERROR_FAILURE, context, none)

theorem binderFinish_context (prims : TlsPrims) (hash : HashAlgo)
    (context : TlsContext) (binderKey digest : List Nat) :
    (tls13ComputePskBinderFinish prims hash context binderKey digest).2.1 =
      context := by
  rw [tls13ComputePskBinderFinish]
  dsimp only
  split
  · rfl
  · split
    · rfl
    · rfl

/-- C3: for every context and every call to `tls13ComputePskBinder` —
successful or failing — the live transcript digest state
(`context->handshakeHashContext`) is unchanged: only the freshly allocated
scratch clone is advanced and finalized. -/
theorem tls13ComputePskBinder_transcript_frame (cfg : TlsConfig)
    (prims : TlsPrims) (context : TlsContext) (clientHello : List Nat)
    (clientHelloLen truncatedClientHelloLen binderLen : Nat) :
    ((tls13ComputePskBinder cfg prims context clientHello clientHelloLen
        truncatedClientHelloLen binderLen).2.1).handshakeHashContext =
      context.handshakeHashContext := by
  rw [tls13ComputePskBinder]
  split
  · rfl
  · split
    · rfl
    · dsimp only
      split
      · rfl
      · split
        · split
          · rfl
          · split
            · rfl
            · rw [binderFinish_context]
        · split
          · split
            · rfl
            · split
              · rfl
              · rw [binderFinish_context]
          · rfl

theorem computePskBinder_secret_psk (cfg : TlsConfig) (prims : TlsPrims)
    (context : TlsContext) (clientHello : List Nat)
    (clientHelloLen truncatedClientHelloLen binderLen : Nat) (hash : HashAlgo)
    (h1 : truncatedClientHelloLen < clientHelloLen)
    (h2 : context.prfHashAlgo = some hash)
    (h3 : binderLen = hash.digestSize)
    (hp : tls13IsPskValid prims context = true) :
    ((tls13ComputePskBinder cfg prims context clientHello clientHelloLen
        truncatedClientHelloLen binderLen).2.1).secret =
      (prims.hkdfExtract hash (context.psk.getD []) []).2 := by
  subst h3
  rw [tls13ComputePskBinder, if_neg (by omega), h2]
  dsimp only
  rw [if_neg (by simp), if_pos hp]
  split
  · rfl
  · split
    · rfl
    · rw [binderFinish_context]

theorem computePskBinder_secret_ticket (cfg : TlsConfig) (prims : TlsPrims)
    (context : TlsContext) (clientHello : List Nat)
    (clientHelloLen truncatedClientHelloLen binderLen : Nat) (hash : HashAlgo)
    (h1 : truncatedClientHelloLen < clientHelloLen)
    (h2 : context.prfHashAlgo = some hash)
    (h3 : binderLen = hash.digestSize)
    (hp : tls13IsPskValid prims context = false)
    (ht : tls13IsTicketValid prims context = true) :
    ((tls13ComputePskBinder cfg prims context clientHello clientHelloLen
        truncatedClientHelloLen binderLen).2.1).secret =
      (prims.hkdfExtract hash context.ticketPsk []).2 := by
  subst h3
  rw [tls13ComputePskBinder, if_neg (by omega), h2]
  dsimp only
  rw [if_neg (by simp), if_neg (by simp [hp]), if_pos ht]
  split
  · rfl
  · split
    · rfl
    · rw [binderFinish_context]

theorem isPskValid_iff (prims : TlsPrims) (context : TlsContext) :
    tls13IsPskValid prims context = true ↔
      ((prims.tlsGetHashAlgo context.pskHashAlgo).isSome = true ∧
       context.psk.isSome = true ∧ 0 < (context.psk.getD []).length ∧
       (context.entity = ConnectionEnd.client →
         context.pskIdentitySet = true)) := by
  unfold tls13IsPskValid
  split_ifs with hA hB hC
  · constructor
    · intro h
      exact ⟨hA, hB.1, hB.2, fun _ => h⟩
    · intro h
      exact h.2.2.2 hC
  · constructor
    · intro _
      exact ⟨hA, hB.1, hB.2, fun hc => absurd hc hC⟩
    · intro _
      rfl
  · constructor
    · intro h
      simp at h
    · intro h
      exact absurd ⟨h.2.1, h.2.2.1⟩ hB
  · constructor
    · intro h
      simp at h
    · intro h
      exact absurd h.1 hA

theorem isTicketValid_iff (prims : TlsPrims) (context : TlsContext) :
    tls13IsTicketValid prims context = true ↔
      ((prims.tlsGetHashAlgo context.ticketHashAlgo).isSome = true ∧
       0 < context.ticketPsk.length ∧
       (context.entity = ConnectionEnd.client →
         context.ticket.isSome = true ∧ 0 < (context.ticket.getD []).length)) := by
  unfold tls13IsTicketValid
  split_ifs with hA hB hC hD
  · constructor
    · intro _
      exact ⟨hA, hB, fun _ => ⟨hD.1, hD.2⟩⟩
    · intro _
      rfl
  · constructor
    · intro h
      simp at h
    · intro h
      exact absurd ⟨(h.2.2 hC).1, (h.2.2 hC).2⟩ hD
  · constructor
    · intro _
      exact ⟨hA, hB, fun hc => absurd hc hC⟩
    · intro _
      rfl
  · constructor
    · intro h
      simp at h
    · intro h
      exact absurd h.2.1 hB
  · constructor
    · intro h
      simp at h
    · intro h
      exact absurd h.1 hA

theorem computePskBinder_noPsk (cfg : TlsConfig) (prims : TlsPrims)
    (context : TlsContext) (clientHello : List Nat)
    (clientHelloLen truncatedClientHelloLen binderLen : Nat) (hash : HashAlgo)
    (h1 : truncatedClientHelloLen < clientHelloLen)
    (h2 : context.prfHashAlgo = some hash)
    (h3 : binderLen = hash.digestSize)
    (hp : tls13IsPskValid prims context = false)
    (ht : tls13IsTicketValid prims context = false) :
    tls13ComputePskBinder cfg prims context clientHello clientHelloLen
      truncatedClientHelloLen binderLen =
      (ErrorT.ERROR_FAILURE, context, none) := by
  subst h3
  rw [tls13ComputePskBinder, if_neg (by omega), h2]
  dsimp only
  rw [if_neg (by simp), if_neg (by simp [hp]), if_neg (by simp [ht])]

/-- C6: key-material selection in `tls13ComputePskBinder`.  A PSK is valid
exactly when its hash algorithm resolves, the PSK is present and
non-empty, and (as client) an identity is set; a ticket is valid exactly
when its hash algorithm resolves, the ticket PSK is non-empty, and (as
client) a non-empty ticket blob is present.  When neither holds the call
fails `ERROR_FAILURE`; the external PSK is preferred (it feeds the early
secret) whenever valid, and the ticket PSK is used only otherwise. -/
theorem tls13ComputePskBinder_selection (cfg : TlsConfig) (prims : TlsPrims)
    (context : TlsContext) (clientHello : List Nat)
    (clientHelloLen truncatedClientHelloLen binderLen : Nat) (hash : HashAlgo)
    (h1 : truncatedClientHelloLen < clientHelloLen)
    (h2 : context.prfHashAlgo = some hash)
    (h3 : binderLen = hash.digestSize) :
    (tls13IsPskValid prims context = true ↔
      ((prims.tlsGetHashAlgo context.pskHashAlgo).isSome = true ∧
       context.psk.isSome = true ∧ 0 < (context.psk.getD []).length ∧
       (context.entity = ConnectionEnd.client →
         context.pskIdentitySet = true))) ∧
    (tls13IsTicketValid prims context = true ↔
      ((prims.tlsGetHashAlgo context.ticketHashAlgo).isSome = true ∧
       0 < context.ticketPsk.length ∧
       (context.entity = ConnectionEnd.client →
         context.ticket.isSome = true ∧ 0 < (context.ticket.getD []).length))) ∧
    (tls13IsPskValid prims context = false →
      tls13IsTicketValid prims context = false →
      tls13ComputePskBinder cfg prims context clientHello clientHelloLen
        truncatedClientHelloLen binderLen =
        (ErrorT.ERROR_FAILURE, context, none)) ∧
    (tls13IsPskValid prims context = true →
      ((tls13ComputePskBinder cfg prims context clientHello clientHelloLen
          truncatedClientHelloLen binderLen).2.1).secret =
        (prims.hkdfExtract hash (context.psk.getD []) []).2) ∧
    (tls13IsPskValid prims context = false →
      tls13IsTicketValid prims context = true →
      ((tls13ComputePskBinder cfg prims context clientHello clientHelloLen
          truncatedClientHelloLen binderLen).2.1).secret =
        (prims.hkdfExtract hash context.ticketPsk []).2) :=
  ⟨isPskValid_iff prims context,
   isTicketValid_iff prims context,
   fun hp ht => computePskBinder_noPsk cfg prims context clientHello
     clientHelloLen truncatedClientHelloLen binderLen hash h1 h2 h3 hp ht,
   fun hp => computePskBinder_secret_psk cfg prims context clientHello
     clientHelloLen truncatedClientHelloLen binderLen hash h1 h2 h3 hp,
   fun hp ht => computePskBinder_secret_ticket cfg prims context clientHello
     clientHelloLen truncatedClientHelloLen binderLen hash h1 h2 h3 hp ht⟩

/-- A context with neither a valid external PSK nor a valid ticket. -/
def ctxNoPsk : TlsContext :=
  { ctxBase with psk := none, ticketPsk := [] }

/-- Witness for C6: `ctxBase` has a valid external PSK; `ctxNoPsk` has
neither a PSK nor a ticket, so binder computation fails `ERROR_FAILURE`. -/
theorem tls13ComputePskBinder_selection_witness :
    tls13IsPskValid primsTest ctxBase = true ∧
    tls13ComputePskBinder cfgAll primsTest ctxNoPsk [1, 2] 2 1 2 =
      (ErrorT.ERROR_FAILURE, ctxNoPsk, none) :=
  ⟨(tls13ComputePskBinder_selection cfgAll primsTest ctxBase [1, 2] 2 1 2
      testHash (by decide) rfl rfl).1.mpr
      ⟨rfl, rfl, by decide, by decide⟩,
   (tls13ComputePskBinder_selection cfgAll primsTest ctxNoPsk [1, 2] 2 1 2
      testHash (by decide) rfl rfl).2.2.1 (by decide) (by decide)⟩

/-- C10: whenever the parameter checks pass and a valid PSK (resp., failing
that, a valid ticket) is selected, `tls13ComputePskBinder` overwrites
`context->secret` with the freshly extracted early secret — with no
assumption that the subsequent derivation steps succeed, so the overwrite
also happens on calls that fail later. -/
theorem tls13ComputePskBinder_overwrites_secret (cfg : TlsConfig)
    (prims : TlsPrims) (context : TlsContext) (clientHello : List Nat)
    (clientHelloLen truncatedClientHelloLen binderLen : Nat) (hash : HashAlgo)
    (h1 : truncatedClientHelloLen < clientHelloLen)
    (h2 : context.prfHashAlgo = some hash)
    (h3 : binderLen = hash.digestSize) :
    (tls13IsPskValid prims context = true →
      ((tls13ComputePskBinder cfg prims context clientHello clientHelloLen
          truncatedClientHelloLen binderLen).2.1).secret =
        (prims.hkdfExtract hash (context.psk.getD []) []).2) ∧
    (tls13IsPskValid prims context = false →
      tls13IsTicketValid prims context = true →
      ((tls13ComputePskBinder cfg prims context clientHello clientHelloLen
          truncatedClientHelloLen binderLen).2.1).secret =
        (prims.hkdfExtract hash context.ticketPsk []).2) :=
  ⟨fun hp => computePskBinder_secret_psk cfg prims context clientHello
     clientHelloLen truncatedClientHelloLen binderLen hash h1 h2 h3 hp,
   fun hp ht => computePskBinder_secret_ticket cfg prims context clientHello
     clientHelloLen truncatedClientHelloLen binderLen hash h1 h2 h3 hp ht⟩

/-- Primitives whose expand-label step always fails: used to witness that
the early secret is written even when a later derivation step fails. -/
def primsFailDerive : TlsPrims :=
  { primsTest with
    hkdfExpandLabel := fun _ _ _ _ _ => (ErrorT.ERROR_FAILURE, []) }

/-- Witness for C10: with a failing expand-label step the call fails, yet
`secret` holds the extracted early secret `[0, 9, 9]`. -/
theorem tls13ComputePskBinder_overwrites_secret_witness :
    ((tls13ComputePskBinder cfgAll primsFailDerive ctxBase [1, 2] 2 1 2).2.1).secret =
      [0, 9, 9] ∧
    (tls13ComputePskBinder cfgAll primsFailDerive ctxBase [1, 2] 2 1 2).1 =
      ErrorT.ERROR_FAILURE :=
  ⟨(tls13ComputePskBinder_overwrites_secret cfgAll primsFailDerive ctxBase
      [1, 2] 2 1 2 testHash (by decide) rfl rfl).1 (by decide),
   by decide⟩

/-- C2: on the success path, the binder written by `tls13ComputePskBinder`
is `HMAC(finishedKey, transcriptDigest)` where
`earlySecret = HKDF-Extract(chosen PSK, empty salt)`,
`binderKey = HKDF-Expand-Label(earlySecret, "ext binder" | "res binder",
empty context, digestSize)` (label by PSK provenance), and
`finishedKey = HKDF-Expand-Label(binderKey, "finished", empty context,
digestSize)`; the digest-size HMAC output is returned verbatim as the
binder. -/
theorem tls13ComputePskBinder_derivation (cfg : TlsConfig) (prims : TlsPrims)
    (context : TlsContext) (clientHello : List Nat)
    (clientHelloLen truncatedClientHelloLen binderLen : Nat) (hash : HashAlgo)
    (h1 : truncatedClientHelloLen < clientHelloLen)
    (h2 : context.prfHashAlgo = some hash)
    (h3 : binderLen = hash.digestSize) :
    (∀ earlySecret binderKey finishedKey binder,
      tls13IsPskValid prims context = true →
      prims.hkdfExtract hash (context.psk.getD []) [] =
        (ErrorT.NO_ERROR, earlySecret) →
      prims.hkdfExpandLabel hash earlySecret (strBytes "ext binder") []
          hash.digestSize = (ErrorT.NO_ERROR, binderKey) →
      prims.hkdfExpandLabel hash binderKey (strBytes "finished") []
          hash.digestSize = (ErrorT.NO_ERROR, finishedKey) →
      prims.hmacCompute hash finishedKey
          (pskBinderTranscriptDigest cfg context hash clientHello
            clientHelloLen truncatedClientHelloLen) =
        (ErrorT.NO_ERROR, binder) →
      tls13ComputePskBinder cfg prims context clientHello clientHelloLen
        truncatedClientHelloLen binderLen =
        (ErrorT.NO_ERROR, { context with secret := earlySecret },
         some binder)) ∧
    (∀ earlySecret binderKey finishedKey binder,
      tls13IsPskValid prims context = false →
      tls13IsTicketValid prims context = true →
      prims.hkdfExtract hash context.ticketPsk [] =
        (ErrorT.NO_ERROR, earlySecret) →
      prims.hkdfExpandLabel hash earlySecret (strBytes "res binder") []
          hash.digestSize = (ErrorT.NO_ERROR, binderKey) →
      prims.hkdfExpandLabel hash binderKey (strBytes "finished") []
          hash.digestSize = (ErrorT.NO_ERROR, finishedKey) →
      prims.hmacCompute hash finishedKey
          (pskBinderTranscriptDigest cfg context hash clientHello
            clientHelloLen truncatedClientHelloLen) =
        (ErrorT.NO_ERROR, binder) →
      tls13ComputePskBinder cfg prims context clientHello clientHelloLen
        truncatedClientHelloLen binderLen =
        (ErrorT.NO_ERROR, { context with secret := earlySecret },
         some binder)) := by
  subst h3
  constructor
  · intro earlySecret binderKey finishedKey binder hp h5 h6 h7 h8
    rw [tls13ComputePskBinder, if_neg (by omega), h2]
    dsimp only
    rw [if_neg (by simp), if_pos hp, h5]
    dsimp only
    rw [if_neg (by simp), tls13DeriveSecret]
    rw [h6]
    dsimp only
    rw [if_neg (by simp), tls13ComputePskBinderFinish, h7]
    dsimp only
    rw [if_neg (by simp), h8]
    dsimp only
    rw [if_neg (by simp)]
  · intro earlySecret binderKey finishedKey binder hp ht h5 h6 h7 h8
    rw [tls13ComputePskBinder, if_neg (by omega), h2]
    dsimp only
    rw [if_neg (by simp), if_neg (by simp [hp]), if_pos ht, h5]
    dsimp only
    rw [if_neg (by simp), tls13DeriveSecret]
    rw [h6]
    dsimp only
    rw [if_neg (by simp), tls13ComputePskBinderFinish, h7]
    dsimp only
    rw [if_neg (by simp), h8]
    dsimp only
    rw [if_neg (by simp)]

/-- Witness for C2 on the external-PSK path with the concrete test
primitives: the binder equals the finished key followed by the transcript
digest `[7, 1]`. -/
theorem tls13ComputePskBinder_derivation_witness :
    tls13ComputePskBinder cfgAll primsTest ctxBase [1, 2] 2 1 2 =
      (ErrorT.NO_ERROR, { ctxBase with secret := [0, 9, 9] },
       some ((([0, 9, 9] ++ strBytes "ext binder") ++ strBytes "finished") ++
         [7, 1])) :=
  (tls13ComputePskBinder_derivation cfgAll primsTest ctxBase [1, 2] 2 1 2
      testHash (by decide) rfl rfl).1
    [0, 9, 9] ([0, 9, 9] ++ strBytes "ext binder")
    (([0, 9, 9] ++ strBytes "ext binder") ++ strBytes "finished")
    ((([0, 9, 9] ++ strBytes "ext binder") ++ strBytes "finished") ++ [7, 1])
    (by decide) rfl rfl rfl rfl

/-! ### CertificateVerify signature generation (`tls13GenerateSignature`) -/

/-- The content covered by a TLS 1.3 CertificateVerify signature, as built
by `tls13GenerateSignature`: 64 space bytes (0x20), the 33-byte ASCII
context string naming the local role, a single zero separator, then the
transcript digest. -/
def tls13SignContent (own : ConnectionEnd) (digest : List Nat) : List Nat :=
  List.replicate 64 32 ++
    (if own = ConnectionEnd.client then
      strBytes "TLS 1.3, client CertificateVerify"
    else
      strBytes "TLS 1.3, server CertificateVerify") ++ [0] ++ digest

/-- The signing-side mapping of `context->signAlgo` to the wire signature
scheme and the pre-hash algorithm identifier, for the six RSA-PSS
variants; `none` corresponds to the (unreachable) trailing
`ERROR_UNSUPPORTED_SIGNATURE_ALGO` arm of the C cascade. -/
def rsaPssSchemeHash (sa : SignAlgo) : Option (Nat × Nat) :=
  if sa = SignAlgo.rsaPssRsaeSha256 then
    some (TLS_SIGN_SCHEME_RSA_PSS_RSAE_SHA256, TLS_HASH_ALGO_SHA256)
  else if sa = SignAlgo.rsaPssRsaeSha384 then
    some (TLS_SIGN_SCHEME_RSA_PSS_RSAE_SHA384, TLS_HASH_ALGO_SHA384)
  else if sa = SignAlgo.rsaPssRsaeSha512 then
    some (TLS_SIGN_SCHEME_RSA_PSS_RSAE_SHA512, TLS_HASH_ALGO_SHA512)
  else if sa = SignAlgo.rsaPssPssSha256 then
    some (TLS_SIGN_SCHEME_RSA_PSS_PSS_SHA256, TLS_HASH_ALGO_SHA256)
  else if sa = SignAlgo.rsaPssPssSha384 then
    some (TLS_SIGN_SCHEME_RSA_PSS_PSS_SHA384, TLS_HASH_ALGO_SHA384)
  else if sa = SignAlgo.rsaPssPssSha512 then
    some (TLS_SIGN_SCHEME_RSA_PSS_PSS_SHA512, TLS_HASH_ALGO_SHA512)
  else
    none

/-- The signing-side mapping of the certificate curve and requested hash to
the ECDSA wire scheme and pre-hash identifier (the three approved
pairings); `none` corresponds to `ERROR_UNSUPPORTED_SIGNATURE_ALGO`. -/
def ecdsaSchemeHash (curve hashAlgoId : Nat) : Option (Nat × Nat) :=
  if curve = TLS_GROUP_SECP256R1 ∧ hashAlgoId = TLS_HASH_ALGO_SHA256 then
    some (TLS_SIGN_SCHEME_ECDSA_SECP256R1_SHA256, TLS_HASH_ALGO_SHA256)
  else if curve = TLS_GROUP_SECP384R1 ∧ hashAlgoId = TLS_HASH_ALGO_SHA384 then
    some (TLS_SIGN_SCHEME_ECDSA_SECP384R1_SHA384, TLS_HASH_ALGO_SHA384)
  else if curve = TLS_GROUP_SECP521R1 ∧ hashAlgoId = TLS_HASH_ALGO_SHA512 then
    some (TLS_SIGN_SCHEME_ECDSA_SECP521R1_SHA512, TLS_HASH_ALGO_SHA512)
  else
    none

/-- `tls13GenerateSignature`: build the signed content, dispatch on the
local signature algorithm (RSA-PSS and ECDSA pre-hash the content, EdDSA
signs it raw), and on success emit the wire record
`scheme:u16 ∥ length:u16 ∥ value` together with the total number of bytes
written (value length plus the 4-byte header).  On failure the output
buffer is treated as not written. -/
def tls13GenerateSignature (cfg : TlsConfig) (prims : TlsPrims)
    (context : TlsContext) : ErrorT × List Nat × Nat :=
  match context.prfHashAlgo with
  | none => (ErrorT.ERROR_FAILURE, [], 0)
  | some hashAlgo =>
      let rT := tlsFinalizeTranscriptHash hashAlgo context.handshakeHashContext []
      if rT.1 ≠ ErrorT.NO_ERROR then
        (rT.1, [], 0)
      else
        let buffer := tls13SignContent context.entity rT.2
        if cfg.rsaPssSignSupport ∧
            (context.signAlgo = SignAlgo.rsaPssRsaeSha256 ∨
             context.signAlgo = SignAlgo.rsaPssRsaeSha384 ∨
             context.signAlgo = SignAlgo.rsaPssRsaeSha512 ∨
             context.signAlgo = SignAlgo.rsaPssPssSha256 ∨
             context.signAlgo = SignAlgo.rsaPssPssSha384 ∨
             context.signAlgo = SignAlgo.rsaPssPssSha512) then
          match rsaPssSchemeHash context.signAlgo with
          | none => (ErrorT.ERROR_UNSUPPORTED_SIGNATURE_ALGO, [], 0)
          | some sh =>
              match prims.tlsGetHashAlgo sh.2 with
              | none => (ErrorT.ERROR_UNSUPPORTED_SIGNATURE_ALGO, [], 0)
              | some h2 =>
                  if prims.pemImportRsaPrivateKey ≠ ErrorT.NO_ERROR then
                    (prims.pemImportRsaPrivateKey, [], 0)
                  else
                    let rs := prims.rsassaPssSign h2 (h2.compute buffer)
                    if rs.1 ≠ ErrorT.NO_ERROR then
                      (rs.1, [], 0)
                    else
                      (ErrorT.NO_ERROR,
                       u16be sh.1 ++ u16be rs.2.length ++ rs.2,
                       rs.2.length + 4)
        else if cfg.ecdsaSignSupport ∧ context.signAlgo = SignAlgo.ecdsa then
          match ecdsaSchemeHash context.certNamedCurve context.signHashAlgo with
          | none => (ErrorT.ERROR_UNSUPPORTED_SIGNATURE_ALGO, [], 0)
          | some sh =>
              match prims.tlsGetHashAlgo sh.2 with
              | none => (ErrorT.ERROR_UNSUPPORTED_SIGNATURE_ALGO, [], 0)
              | some h2 =>
                  let rs := prims.tlsGenerateEcdsaSignature (h2.compute buffer)
                  if rs.1 ≠ ErrorT.NO_ERROR then
                    (rs.1, [], 0)
                  else
                    (ErrorT.NO_ERROR,
                     u16be sh.1 ++ u16be rs.2.length ++ rs.2,
                     rs.2.length + 4)
        else if cfg.eddsaSignSupport ∧
            (context.signAlgo = SignAlgo.ed25519 ∨
             context.signAlgo = SignAlgo.ed448) then
          let scheme :=
            if context.signAlgo = SignAlgo.ed25519 then TLS_SIGN_SCHEME_ED25519
            else TLS_SIGN_SCHEME_ED448
          let rs := prims.tlsGenerateEddsaSignature buffer
          if rs.1 ≠ ErrorT.NO_ERROR then
            (rs.1, [], 0)
          else
            (ErrorT.NO_ERROR,
             u16be scheme ++ u16be rs.2.length ++ rs.2,
             rs.2.length + 4)
        else
          (ErrorT.ERROR_UNSUPPORTED_SIGNATURE_ALGO, [], 0)

/-! ### CertificateVerify signature verification (`tls13VerifySignature`) -/

/-- The content covered by the peer's CertificateVerify signature: the same
layout as `tls13SignContent` but with the role label swapped, because the
peer signed under its own role. -/
def tls13VerifyContent (own : ConnectionEnd) (digest : List Nat) : List Nat :=
  List.replicate 64 32 ++
    (if own = ConnectionEnd.client then
      strBytes "TLS 1.3, server CertificateVerify"
    else
      strBytes "TLS 1.3, client CertificateVerify") ++ [0] ++ digest

/-- The verification-side mapping of the claimed RSA-PSS scheme to the
pre-hash algorithm, cross-checked against the peer certificate type;
`none` stands for the `hashAlgo = NULL` outcome that is reported as
`ERROR_INVALID_SIGNATURE`. -/
def rsaPssVerifyHashId (certType : TlsCertType) (signAlgo : Nat) : Option Nat :=
  if certType = TlsCertType.rsaSign then
    if signAlgo = TLS_SIGN_SCHEME_RSA_PSS_RSAE_SHA256 then
      some TLS_HASH_ALGO_SHA256
    else if signAlgo = TLS_SIGN_SCHEME_RSA_PSS_RSAE_SHA384 then
      some TLS_HASH_ALGO_SHA384
    else if signAlgo = TLS_SIGN_SCHEME_RSA_PSS_RSAE_SHA512 then
      some TLS_HASH_ALGO_SHA512
    else
      none
  else if certType = TlsCertType.rsaPssSign then
    if signAlgo = TLS_SIGN_SCHEME_RSA_PSS_PSS_SHA256 then
      some TLS_HASH_ALGO_SHA256
    else if signAlgo = TLS_SIGN_SCHEME_RSA_PSS_PSS_SHA384 then
      some TLS_HASH_ALGO_SHA384
    else if signAlgo = TLS_SIGN_SCHEME_RSA_PSS_PSS_SHA512 then
      some TLS_HASH_ALGO_SHA512
    else
      none
  else
    none

/-- The verification-side mapping of the claimed ECDSA scheme to the
pre-hash algorithm, cross-checked against the peer certificate type and
the peer certificate's curve name; `none` is reported as
`ERROR_INVALID_SIGNATURE`. -/
def ecdsaVerifyHashId (certType : TlsCertType) (curveName : Option String)
    (signAlgo : Nat) : Option Nat :=
  if certType = TlsCertType.ecdsaSign then
    match curveName with
    | none => none
    | some name =>
        if signAlgo = TLS_SIGN_SCHEME_ECDSA_SECP256R1_SHA256 ∧
            name = "secp256r1" then
          some TLS_HASH_ALGO_SHA256
        else if signAlgo = TLS_SIGN_SCHEME_ECDSA_SECP384R1_SHA384 ∧
            name = "secp384r1" then
          some TLS_HASH_ALGO_SHA384
        else if signAlgo = TLS_SIGN_SCHEME_ECDSA_SECP521R1_SHA512 ∧
            name = "secp521r1" then
          some TLS_HASH_ALGO_SHA512
        else
          none
  else
    none

/-- The scheme dispatch of `tls13VerifySignature` over the claimed scheme,
the rebuilt content and the signature value.  Modelled from the spec: the
external verification primitives (`rsassaPssVerify`,
`tlsVerifyEcdsaSignature`, `tlsVerifyEddsaSignature`, not under `src/`)
are accept/reject predicates, and a reject — like every mismatch or
unresolved mapping — is reported uniformly as `ERROR_INVALID_SIGNATURE`
(spec section 4.5). -/
def tls13VerifySignatureDispatch (cfg : TlsConfig) (prims : TlsPrims)
    (context : TlsContext) (signAlgo : Nat) (buffer value : List Nat) :
    ErrorT :=
  if cfg.rsaPssSignSupport ∧
      (signAlgo = TLS_SIGN_SCHEME_RSA_PSS_RSAE_SHA256 ∨
       signAlgo = TLS_SIGN_SCHEME_RSA_PSS_RSAE_SHA384 ∨
       signAlgo = TLS_SIGN_SCHEME_RSA_PSS_RSAE_SHA512 ∨
       signAlgo = TLS_SIGN_SCHEME_RSA_PSS_PSS_SHA256 ∨
       signAlgo = TLS_SIGN_SCHEME_RSA_PSS_PSS_SHA384 ∨
       signAlgo = TLS_SIGN_SCHEME_RSA_PSS_PSS_SHA512) then
    match rsaPssVerifyHashId context.peerCertType signAlgo with
    | none => ErrorT.ERROR_INVALID_SIGNATURE
    | some hid =>
        match prims.tlsGetHashAlgo hid with
        | none => ErrorT.ERROR_INVALID_SIGNATURE
        | some h2 =>
            if prims.rsassaPssVerify h2 (h2.compute buffer) value then
              ErrorT.NO_ERROR
            else
              ErrorT.ERROR_INVALID_SIGNATURE
  else if cfg.ecdsaSignSupport ∧
      (signAlgo = TLS_SIGN_SCHEME_ECDSA_SECP256R1_SHA256 ∨
       signAlgo = TLS_SIGN_SCHEME_ECDSA_SECP384R1_SHA384 ∨
       signAlgo = TLS_SIGN_SCHEME_ECDSA_SECP521R1_SHA512) then
    match ecdsaVerifyHashId context.peerCertType context.peerEcParamsName
        signAlgo with
    | none => ErrorT.ERROR_INVALID_SIGNATURE
    | some hid =>
        match prims.tlsGetHashAlgo hid with
        | none => ErrorT.ERROR_INVALID_SIGNATURE
        | some h2 =>
            if prims.tlsVerifyEcdsaSignature (h2.compute buffer) value then
              ErrorT.NO_ERROR
            else
              ErrorT.ERROR_INVALID_SIGNATURE
  else if cfg.eddsaSignSupport ∧ cfg.ed25519Support ∧
      signAlgo = TLS_SIGN_SCHEME_ED25519 then
    if context.peerCertType = TlsCertType.ed25519Sign then
      if prims.tlsVerifyEddsaSignature buffer value then
        ErrorT.NO_ERROR
      else
        ErrorT.ERROR_INVALID_SIGNATURE
    else
      ErrorT.ERROR_INVALID_SIGNATURE
  else if cfg.eddsaSignSupport ∧ cfg.ed448Support ∧
      signAlgo = TLS_SIGN_SCHEME_ED448 then
    if context.peerCertType = TlsCertType.ed448Sign then
      if prims.tlsVerifyEddsaSignature buffer value then
        ErrorT.NO_ERROR
      else
        ErrorT.ERROR_INVALID_SIGNATURE
    else
      ErrorT.ERROR_INVALID_SIGNATURE
  else
    ErrorT.ERROR_INVALID_SIGNATURE

/-- `tls13VerifySignature`: reject records shorter than the fixed 4-byte
header or whose total length is not header plus declared value length with
`ERROR_DECODING_FAILED`; then rebuild the signed content with the role
label swapped, map the claimed scheme while enforcing the peer
certificate type/curve, and verify. -/
def tls13VerifySignature (cfg : TlsConfig) (prims : TlsPrims)
    (context : TlsContext) (p : List Nat) : ErrorT :=
  if p.length < 4 then
    ErrorT.ERROR_DECODING_FAILED
  else if p.length ≠ 4 + readU16 (p.getD 2 0) (p.getD 3 0) then
    ErrorT.ERROR_DECODING_FAILED
  else
    match context.prfHashAlgo with
    | none => ErrorT.ERROR_FAILURE
    | some hashAlgo =>
        let rT := tlsFinalizeTranscriptHash hashAlgo
          context.handshakeHashContext []
        if rT.1 ≠ ErrorT.NO_ERROR then
          rT.1
        else
          tls13VerifySignatureDispatch cfg prims context
            (readU16 (p.getD 0 0) (p.getD 1 0))
            (tls13VerifyContent context.entity rT.2) (p.drop 4)

theorem clientLabel_length :
    (strBytes "TLS 1.3, client CertificateVerify").length = 33 := by
  decide

theorem serverLabel_length :
    (strBytes "TLS 1.3, server CertificateVerify").length = 33 := by
  decide

theorem signContent_length (own : ConnectionEnd) (d : List Nat) :
    (tls13SignContent own d).length = 98 + d.length := by
  rcases own
  · rw [tls13SignContent, if_pos rfl]
    simp only [List.length_append, List.length_replicate, clientLabel_length,
      List.length_cons, List.length_nil]
  · rw [tls13SignContent, if_neg (by simp)]
    simp only [List.length_append, List.length_replicate, serverLabel_length,
      List.length_cons, List.length_nil]

/-- The six signing-side RSA-PSS rows `(signAlgo, wire scheme, hash id)` of
the `tls13GenerateSignature` cascade. -/
def rsaPssTable : List (SignAlgo × Nat × Nat) :=
  [(SignAlgo.rsaPssRsaeSha256, TLS_SIGN_SCHEME_RSA_PSS_RSAE_SHA256,
      TLS_HASH_ALGO_SHA256),
   (SignAlgo.rsaPssRsaeSha384, TLS_SIGN_SCHEME_RSA_PSS_RSAE_SHA384,
      TLS_HASH_ALGO_SHA384),
   (SignAlgo.rsaPssRsaeSha512, TLS_SIGN_SCHEME_RSA_PSS_RSAE_SHA512,
      TLS_HASH_ALGO_SHA512),
   (SignAlgo.rsaPssPssSha256, TLS_SIGN_SCHEME_RSA_PSS_PSS_SHA256,
      TLS_HASH_ALGO_SHA256),
   (SignAlgo.rsaPssPssSha384, TLS_SIGN_SCHEME_RSA_PSS_PSS_SHA384,
      TLS_HASH_ALGO_SHA384),
   (SignAlgo.rsaPssPssSha512, TLS_SIGN_SCHEME_RSA_PSS_PSS_SHA512,
      TLS_HASH_ALGO_SHA512)]

/-- The three signing-side ECDSA rows
`(certificate curve, requested hash, wire scheme, hash id)`. -/
def ecdsaTable : List (Nat × Nat × Nat × Nat) :=
  [(TLS_GROUP_SECP256R1, TLS_HASH_ALGO_SHA256,
      TLS_SIGN_SCHEME_ECDSA_SECP256R1_SHA256, TLS_HASH_ALGO_SHA256),
   (TLS_GROUP_SECP384R1, TLS_HASH_ALGO_SHA384,
      TLS_SIGN_SCHEME_ECDSA_SECP384R1_SHA384, TLS_HASH_ALGO_SHA384),
   (TLS_GROUP_SECP521R1, TLS_HASH_ALGO_SHA512,
      TLS_SIGN_SCHEME_ECDSA_SECP521R1_SHA512, TLS_HASH_ALGO_SHA512)]

theorem rsaPssTable_mem (sa : SignAlgo) (scheme hid : Nat)
    (hm : (sa, scheme, hid) ∈ rsaPssTable) :
    rsaPssSchemeHash sa = some (scheme, hid) ∧
    (sa = SignAlgo.rsaPssRsaeSha256 ∨ sa = SignAlgo.rsaPssRsaeSha384 ∨
     sa = SignAlgo.rsaPssRsaeSha512 ∨ sa = SignAlgo.rsaPssPssSha256 ∨
     sa = SignAlgo.rsaPssPssSha384 ∨ sa = SignAlgo.rsaPssPssSha512) := by
  simp only [rsaPssTable, List.mem_cons, List.not_mem_nil, or_false,
    Prod.mk.injEq] at hm
  rcases hm with hm | hm | hm | hm | hm | hm <;>
    obtain ⟨rfl, rfl, rfl⟩ := hm <;> exact ⟨rfl, by simp⟩

theorem ecdsaTable_mem (curve shid scheme hid : Nat)
    (hm : (curve, shid, scheme, hid) ∈ ecdsaTable) :
    ecdsaSchemeHash curve shid = some (scheme, hid) := by
  simp only [ecdsaTable, List.mem_cons, List.not_mem_nil, or_false,
    Prod.mk.injEq] at hm
  rcases hm with hm | hm | hm <;> obtain ⟨rfl, rfl, rfl, rfl⟩ := hm <;> rfl

/-- C7: when `tls13GenerateSignature` succeeds, the signed content is the
`98 + digestSize`-byte buffer `64 × 0x20 ∥ role context string ∥ 0x00 ∥
transcript digest`; RSA-PSS and ECDSA schemes sign the hash of that
buffer while EdDSA schemes sign the raw buffer; the emitted wire record is
`scheme:u16 ∥ length:u16 ∥ value` and the reported total length is the
value length plus the 4-byte header. -/
theorem tls13GenerateSignature_spec (cfg : TlsConfig) (prims : TlsPrims)
    (context : TlsContext) (hashAlgo : HashAlgo) (s : List Nat)
    (hh : context.prfHashAlgo = some hashAlgo)
    (hs : context.handshakeHashContext = some s) :
    (tls13SignContent context.entity (hashAlgo.compute (s ++ []))).length =
      98 + hashAlgo.digestSize ∧
    (∀ scheme hid h2 sig, cfg.rsaPssSignSupport = true →
      (context.signAlgo, scheme, hid) ∈ rsaPssTable →
      prims.tlsGetHashAlgo hid = some h2 →
      prims.pemImportRsaPrivateKey = ErrorT.NO_ERROR →
      prims.rsassaPssSign h2 (h2.compute (tls13SignContent context.entity
        (hashAlgo.compute (s ++ [])))) = (ErrorT.NO_ERROR, sig) →
      tls13GenerateSignature cfg prims context =
        (ErrorT.NO_ERROR, u16be scheme ++ u16be sig.length ++ sig,
         sig.length + 4)) ∧
    (∀ scheme hid h2 sig, cfg.ecdsaSignSupport = true →
      context.signAlgo = SignAlgo.ecdsa →
      (context.certNamedCurve, context.signHashAlgo, scheme, hid) ∈ ecdsaTable →
      prims.tlsGetHashAlgo hid = some h2 →
      prims.tlsGenerateEcdsaSignature (h2.compute (tls13SignContent
        context.entity (hashAlgo.compute (s ++ [])))) = (ErrorT.NO_ERROR, sig) →
      tls13GenerateSignature cfg prims context =
        (ErrorT.NO_ERROR, u16be scheme ++ u16be sig.length ++ sig,
         sig.length + 4)) ∧
    (∀ sig, cfg.eddsaSignSupport = true →
      context.signAlgo = SignAlgo.ed25519 →
      prims.tlsGenerateEddsaSignature (tls13SignContent context.entity
        (hashAlgo.compute (s ++ []))) = (ErrorT.NO_ERROR, sig) →
      tls13GenerateSignature cfg prims context =
        (ErrorT.NO_ERROR,
         u16be TLS_SIGN_SCHEME_ED25519 ++ u16be sig.length ++ sig,
         sig.length + 4)) ∧
    (∀ sig, cfg.eddsaSignSupport = true →
      context.signAlgo = SignAlgo.ed448 →
      prims.tlsGenerateEddsaSignature (tls13SignContent context.entity
        (hashAlgo.compute (s ++ []))) = (ErrorT.NO_ERROR, sig) →
      tls13GenerateSignature cfg prims context =
        (ErrorT.NO_ERROR,
         u16be TLS_SIGN_SCHEME_ED448 ++ u16be sig.length ++ sig,
         sig.length + 4)) := by
  refine ⟨?_, ?_, ?_, ?_, ?_⟩
  · rw [signContent_length, hashAlgo.compute_len]
  · intro scheme hid h2 sig hflag hmem hhash hpem hsign
    obtain ⟨heq, hdisj⟩ := rsaPssTable_mem context.signAlgo scheme hid hmem
    rw [tls13GenerateSignature.eq_def, hh]
    dsimp only
    rw [hs]
    simp only [tlsFinalizeTranscriptHash]
    rw [if_neg (by simp), if_pos ⟨hflag, hdisj⟩, heq]
    dsimp only
    rw [hhash]
    dsimp only
    rw [if_neg (by simp [hpem]), hsign]
    dsimp only
    rw [if_neg (by simp)]
  · intro scheme hid h2 sig hflag hsa hmem hhash hsign
    have heq := ecdsaTable_mem context.certNamedCurve context.signHashAlgo
      scheme hid hmem
    rw [tls13GenerateSignature.eq_def, hh]
    dsimp only
    rw [hs]
    simp only [tlsFinalizeTranscriptHash]
    rw [if_neg (by simp), if_neg (by simp [hsa]), if_pos ⟨hflag, hsa⟩, heq]
    dsimp only
    rw [hhash]
    dsimp only
    rw [hsign]
    dsimp only
    rw [if_neg (by simp)]
  · intro sig hflag hsa hsign
    rw [tls13GenerateSignature.eq_def, hh]
    dsimp only
    rw [hs]
    simp only [tlsFinalizeTranscriptHash]
    rw [if_neg (by simp), if_neg (by simp [hsa]), if_neg (by simp [hsa]),
      if_pos ⟨hflag, Or.inl hsa⟩]
    rw [if_pos hsa, hsign]
    dsimp only
    rw [if_neg (by simp)]
  · intro sig hflag hsa hsign
    rw [tls13GenerateSignature.eq_def, hh]
    dsimp only
    rw [hs]
    simp only [tlsFinalizeTranscriptHash]
    rw [if_neg (by simp), if_neg (by simp [hsa]), if_neg (by simp [hsa]),
      if_pos ⟨hflag, Or.inr hsa⟩]
    rw [hsign]
    dsimp only
    rw [if_neg (by simp), if_neg (by simp [hsa])]

/-- Witness for C7 on the Ed25519 path: the raw 100-byte content is signed,
yielding the record `0x0807 ∥ 0x0001 ∥ 0x64` of total length 5. -/
theorem tls13GenerateSignature_spec_witness :
    tls13GenerateSignature cfgAll primsTest ctxBase =
      (ErrorT.NO_ERROR,
       u16be TLS_SIGN_SCHEME_ED25519 ++ u16be 1 ++ [100], 5) :=
  (tls13GenerateSignature_spec cfgAll primsTest ctxBase testHash [5, 6]
      rfl rfl).2.2.2.1 [100] rfl rfl (by decide)

theorem finalize_cases (hash : HashAlgo) (st : Option (List Nat))
    (label : List Nat) :
    (tlsFinalizeTranscriptHash hash st label).1 = ErrorT.NO_ERROR ∨
    (tlsFinalizeTranscriptHash hash st label).1 = ErrorT.ERROR_FAILURE := by
  cases st <;> simp [tlsFinalizeTranscriptHash]

theorem dispatch_cases (cfg : TlsConfig) (prims : TlsPrims)
    (context : TlsContext) (signAlgo : Nat) (buffer value : List Nat) :
    tls13VerifySignatureDispatch cfg prims context signAlgo buffer value =
      ErrorT.NO_ERROR ∨
    tls13VerifySignatureDispatch cfg prims context signAlgo buffer value =
      ErrorT.ERROR_INVALID_SIGNATURE := by
  unfold tls13VerifySignatureDispatch
  repeat' split
  all_goals simp

theorem verify_eq_dispatch (cfg : TlsConfig) (prims : TlsPrims)
    (context : TlsContext) (p : List Nat) (hashAlgo : HashAlgo) (s : List Nat)
    (hh : context.prfHashAlgo = some hashAlgo)
    (hs : context.handshakeHashContext = some s)
    (hgood : ¬(p.length < 4 ∨
      p.length ≠ 4 + readU16 (p.getD 2 0) (p.getD 3 0))) :
    tls13VerifySignature cfg prims context p =
      tls13VerifySignatureDispatch cfg prims context
        (readU16 (p.getD 0 0) (p.getD 1 0))
        (tls13VerifyContent context.entity (hashAlgo.compute (s ++ [])))
        (p.drop 4) := by
  push_neg at hgood
  rw [tls13VerifySignature, if_neg (by omega), if_neg (by omega), hh]
  dsimp only
  rw [hs]
  simp only [tlsFinalizeTranscriptHash]
  rw [if_neg (by simp)]

theorem dispatch_unknown (cfg : TlsConfig) (prims : TlsPrims)
    (context : TlsContext) (signAlgo : Nat) (buffer value : List Nat)
    (h : ¬(signAlgo = TLS_SIGN_SCHEME_RSA_PSS_RSAE_SHA256 ∨
      signAlgo = TLS_SIGN_SCHEME_RSA_PSS_RSAE_SHA384 ∨
      signAlgo = TLS_SIGN_SCHEME_RSA_PSS_RSAE_SHA512 ∨
      signAlgo = TLS_SIGN_SCHEME_RSA_PSS_PSS_SHA256 ∨
      signAlgo = TLS_SIGN_SCHEME_RSA_PSS_PSS_SHA384 ∨
      signAlgo = TLS_SIGN_SCHEME_RSA_PSS_PSS_SHA512 ∨
      signAlgo = TLS_SIGN_SCHEME_ECDSA_SECP256R1_SHA256 ∨
      signAlgo = TLS_SIGN_SCHEME_ECDSA_SECP384R1_SHA384 ∨
      signAlgo = TLS_SIGN_SCHEME_ECDSA_SECP521R1_SHA512 ∨
      signAlgo = TLS_SIGN_SCHEME_ED25519 ∨
      signAlgo = TLS_SIGN_SCHEME_ED448)) :
    tls13VerifySignatureDispatch cfg prims context signAlgo buffer value =
      ErrorT.ERROR_INVALID_SIGNATURE := by
  unfold tls13VerifySignatureDispatch
  rw [if_neg (by rintro ⟨-, hx⟩; exact h (by tauto)),
    if_neg (by rintro ⟨-, hx⟩; exact h (by tauto)),
    if_neg (by rintro ⟨-, -, hx⟩; exact h (by tauto)),
    if_neg (by rintro ⟨-, -, hx⟩; exact h (by tauto))]

theorem rsaPssVerifyHashId_mismatch (certType : TlsCertType) (signAlgo : Nat)
    (hc1 : certType ≠ TlsCertType.rsaSign)
    (hc2 : certType ≠ TlsCertType.rsaPssSign) :
    rsaPssVerifyHashId certType signAlgo = none := by
  unfold rsaPssVerifyHashId
  rw [if_neg hc1, if_neg hc2]

theorem dispatch_rsa_mismatch (cfg : TlsConfig) (prims : TlsPrims)
    (context : TlsContext) (signAlgo : Nat) (buffer value : List Nat)
    (hscheme : signAlgo = TLS_SIGN_SCHEME_RSA_PSS_RSAE_SHA256 ∨
      signAlgo = TLS_SIGN_SCHEME_RSA_PSS_RSAE_SHA384 ∨
      signAlgo = TLS_SIGN_SCHEME_RSA_PSS_RSAE_SHA512 ∨
      signAlgo = TLS_SIGN_SCHEME_RSA_PSS_PSS_SHA256 ∨
      signAlgo = TLS_SIGN_SCHEME_RSA_PSS_PSS_SHA384 ∨
      signAlgo = TLS_SIGN_SCHEME_RSA_PSS_PSS_SHA512)
    (hc1 : context.peerCertType ≠ TlsCertType.rsaSign)
    (hc2 : context.peerCertType ≠ TlsCertType.rsaPssSign) :
    tls13VerifySignatureDispatch cfg prims context signAlgo buffer value =
      ErrorT.ERROR_INVALID_SIGNATURE := by
  unfold tls13VerifySignatureDispatch
  by_cases hflag : cfg.rsaPssSignSupport = true
  · rw [if_pos ⟨hflag, hscheme⟩,
      rsaPssVerifyHashId_mismatch context.peerCertType signAlgo hc1 hc2]
  · rw [if_neg (fun hc => hflag hc.1)]
    rcases hscheme with rfl | rfl | rfl | rfl | rfl | rfl <;>
      rw [if_neg (by rintro ⟨-, hx⟩; exact absurd hx (by decide)),
        if_neg (by rintro ⟨-, -, hx⟩; exact absurd hx (by decide)),
        if_neg (by rintro ⟨-, -, hx⟩; exact absurd hx (by decide))]

theorem dispatch_ed25519_mismatch (cfg : TlsConfig) (prims : TlsPrims)
    (context : TlsContext) (buffer value : List Nat)
    (hcert : context.peerCertType ≠ TlsCertType.ed25519Sign) :
    tls13VerifySignatureDispatch cfg prims context TLS_SIGN_SCHEME_ED25519
      buffer value = ErrorT.ERROR_INVALID_SIGNATURE := by
  unfold tls13VerifySignatureDispatch
  rw [if_neg (by rintro ⟨-, hx⟩; exact absurd hx (by decide)),
    if_neg (by rintro ⟨-, hx⟩; exact absurd hx (by decide))]
  by_cases hflag : cfg.eddsaSignSupport = true ∧ cfg.ed25519Support = true
  · rw [if_pos ⟨hflag.1, hflag.2, rfl⟩, if_neg hcert]
  · rw [if_neg (fun hc => hflag ⟨hc.1, hc.2.1⟩),
      if_neg (by rintro ⟨-, -, hx⟩; exact absurd hx (by decide))]

theorem dispatch_ed25519_reject (cfg : TlsConfig) (prims : TlsPrims)
    (context : TlsContext) (buffer value : List Nat)
    (hflag1 : cfg.eddsaSignSupport = true)
    (hflag2 : cfg.ed25519Support = true)
    (hcert : context.peerCertType = TlsCertType.ed25519Sign)
    (hver : prims.tlsVerifyEddsaSignature buffer value = false) :
    tls13VerifySignatureDispatch cfg prims context TLS_SIGN_SCHEME_ED25519
      buffer value = ErrorT.ERROR_INVALID_SIGNATURE := by
  unfold tls13VerifySignatureDispatch
  rw [if_neg (by rintro ⟨-, hx⟩; exact absurd hx (by decide)),
    if_neg (by rintro ⟨-, hx⟩; exact absurd hx (by decide)),
    if_pos ⟨hflag1, hflag2, rfl⟩, if_pos hcert, if_neg (by simp [hver])]

/-- The claimed scheme is one of the six RSA-PSS wire schemes of the
verification dispatch. -/
abbrev isRsaPssScheme (signAlgo : Nat) : Prop :=
  signAlgo = TLS_SIGN_SCHEME_RSA_PSS_RSAE_SHA256 ∨
  signAlgo = TLS_SIGN_SCHEME_RSA_PSS_RSAE_SHA384 ∨
  signAlgo = TLS_SIGN_SCHEME_RSA_PSS_RSAE_SHA512 ∨
  signAlgo = TLS_SIGN_SCHEME_RSA_PSS_PSS_SHA256 ∨
  signAlgo = TLS_SIGN_SCHEME_RSA_PSS_PSS_SHA384 ∨
  signAlgo = TLS_SIGN_SCHEME_RSA_PSS_PSS_SHA512

/-- The claimed scheme is one of the three ECDSA wire schemes of the
verification dispatch. -/
abbrev isEcdsaScheme (signAlgo : Nat) : Prop :=
  signAlgo = TLS_SIGN_SCHEME_ECDSA_SECP256R1_SHA256 ∨
  signAlgo = TLS_SIGN_SCHEME_ECDSA_SECP384R1_SHA384 ∨
  signAlgo = TLS_SIGN_SCHEME_ECDSA_SECP521R1_SHA512

theorem ecdsaVerifyHashId_certMismatch (certType : TlsCertType)
    (curveName : Option String) (signAlgo : Nat)
    (hc : certType ≠ TlsCertType.ecdsaSign) :
    ecdsaVerifyHashId certType curveName signAlgo = none := by
  unfold ecdsaVerifyHashId
  rw [if_neg hc]

theorem dispatch_rsa_flag_off (cfg : TlsConfig) (prims : TlsPrims)
    (context : TlsContext) (signAlgo : Nat) (buffer value : List Nat)
    (hscheme : isRsaPssScheme signAlgo)
    (hflag : ¬cfg.rsaPssSignSupport = true) :
    tls13VerifySignatureDispatch cfg prims context signAlgo buffer value =
      ErrorT.ERROR_INVALID_SIGNATURE := by
  unfold tls13VerifySignatureDispatch
  rw [if_neg (fun hc => hflag hc.1)]
  rcases hscheme with rfl | rfl | rfl | rfl | rfl | rfl <;>
    rw [if_neg (by rintro ⟨-, hx⟩; exact absurd hx (by decide)),
      if_neg (by rintro ⟨-, -, hx⟩; exact absurd hx (by decide)),
      if_neg (by rintro ⟨-, -, hx⟩; exact absurd hx (by decide))]

theorem dispatch_ecdsa_flag_off (cfg : TlsConfig) (prims : TlsPrims)
    (context : TlsContext) (signAlgo : Nat) (buffer value : List Nat)
    (hscheme : isEcdsaScheme signAlgo)
    (hflag : ¬cfg.ecdsaSignSupport = true) :
    tls13VerifySignatureDispatch cfg prims context signAlgo buffer value =
      ErrorT.ERROR_INVALID_SIGNATURE := by
  unfold tls13VerifySignatureDispatch
  rcases hscheme with rfl | rfl | rfl <;>
    rw [if_neg (by rintro ⟨-, hx⟩; exact absurd hx (by decide)),
      if_neg (fun hc => hflag hc.1),
      if_neg (by rintro ⟨-, -, hx⟩; exact absurd hx (by decide)),
      if_neg (by rintro ⟨-, -, hx⟩; exact absurd hx (by decide))]

theorem dispatch_rsa_hash_none (cfg : TlsConfig) (prims : TlsPrims)
    (context : TlsContext) (signAlgo : Nat) (buffer value : List Nat)
    (hid : Nat) (hscheme : isRsaPssScheme signAlgo)
    (hmap : rsaPssVerifyHashId context.peerCertType signAlgo = some hid)
    (hhash : prims.tlsGetHashAlgo hid = none) :
    tls13VerifySignatureDispatch cfg prims context signAlgo buffer value =
      ErrorT.ERROR_INVALID_SIGNATURE := by
  by_cases hflag : cfg.rsaPssSignSupport = true
  · unfold tls13VerifySignatureDispatch
    rw [if_pos ⟨hflag, hscheme⟩, hmap]
    dsimp only
    rw [hhash]
  · exact dispatch_rsa_flag_off cfg prims context signAlgo buffer value
      hscheme hflag

theorem dispatch_rsa_reject (cfg : TlsConfig) (prims : TlsPrims)
    (context : TlsContext) (signAlgo : Nat) (buffer value : List Nat)
    (hid : Nat) (h2 : HashAlgo) (hscheme : isRsaPssScheme signAlgo)
    (hmap : rsaPssVerifyHashId context.peerCertType signAlgo = some hid)
    (hhash : prims.tlsGetHashAlgo hid = some h2)
    (hver : prims.rsassaPssVerify h2 (h2.compute buffer) value = false) :
    tls13VerifySignatureDispatch cfg prims context signAlgo buffer value =
      ErrorT.ERROR_INVALID_SIGNATURE := by
  by_cases hflag : cfg.rsaPssSignSupport = true
  · unfold tls13VerifySignatureDispatch
    rw [if_pos ⟨hflag, hscheme⟩, hmap]
    dsimp only
    rw [hhash]
    dsimp only
    rw [if_neg (by simp [hver])]
  · exact dispatch_rsa_flag_off cfg prims context signAlgo buffer value
      hscheme hflag

theorem dispatch_ecdsa_unmapped (cfg : TlsConfig) (prims : TlsPrims)
    (context : TlsContext) (signAlgo : Nat) (buffer value : List Nat)
    (hscheme : isEcdsaScheme signAlgo)
    (hmap : ecdsaVerifyHashId context.peerCertType context.peerEcParamsName
      signAlgo = none) :
    tls13VerifySignatureDispatch cfg prims context signAlgo buffer value =
      ErrorT.ERROR_INVALID_SIGNATURE := by
  by_cases hflag : cfg.ecdsaSignSupport = true
  · unfold tls13VerifySignatureDispatch
    rcases hscheme with rfl | rfl | rfl <;>
      rw [if_neg (by rintro ⟨-, hx⟩; exact absurd hx (by decide)),
        if_pos ⟨hflag, by decide⟩, hmap]
  · exact dispatch_ecdsa_flag_off cfg prims context signAlgo buffer value
      hscheme hflag

theorem dispatch_ecdsa_hash_none (cfg : TlsConfig) (prims : TlsPrims)
    (context : TlsContext) (signAlgo : Nat) (buffer value : List Nat)
    (hid : Nat) (hscheme : isEcdsaScheme signAlgo)
    (hmap : ecdsaVerifyHashId context.peerCertType context.peerEcParamsName
      signAlgo = some hid)
    (hhash : prims.tlsGetHashAlgo hid = none) :
    tls13VerifySignatureDispatch cfg prims context signAlgo buffer value =
      ErrorT.ERROR_INVALID_SIGNATURE := by
  by_cases hflag : cfg.ecdsaSignSupport = true
  · unfold tls13VerifySignatureDispatch
    rcases hscheme with rfl | rfl | rfl
    all_goals
      rw [if_neg (by rintro ⟨-, hx⟩; exact absurd hx (by decide)),
        if_pos ⟨hflag, by decide⟩, hmap]
      dsimp only
      rw [hhash]
  · exact dispatch_ecdsa_flag_off cfg prims context signAlgo buffer value
      hscheme hflag

theorem dispatch_ecdsa_reject (cfg : TlsConfig) (prims : TlsPrims)
    (context : TlsContext) (signAlgo : Nat) (buffer value : List Nat)
    (hid : Nat) (h2 : HashAlgo) (hscheme : isEcdsaScheme signAlgo)
    (hmap : ecdsaVerifyHashId context.peerCertType context.peerEcParamsName
      signAlgo = some hid)
    (hhash : prims.tlsGetHashAlgo hid = some h2)
    (hver : prims.tlsVerifyEcdsaSignature (h2.compute buffer) value = false) :
    tls13VerifySignatureDispatch cfg prims context signAlgo buffer value =
      ErrorT.ERROR_INVALID_SIGNATURE := by
  by_cases hflag : cfg.ecdsaSignSupport = true
  · unfold tls13VerifySignatureDispatch
    rcases hscheme with rfl | rfl | rfl
    all_goals
      rw [if_neg (by rintro ⟨-, hx⟩; exact absurd hx (by decide)),
        if_pos ⟨hflag, by decide⟩, hmap]
      dsimp only
      rw [hhash]
      dsimp only
      rw [if_neg (by simp [hver])]
  · exact dispatch_ecdsa_flag_off cfg prims context signAlgo buffer value
      hscheme hflag

theorem dispatch_ed448_mismatch (cfg : TlsConfig) (prims : TlsPrims)
    (context : TlsContext) (buffer value : List Nat)
    (hcert : context.peerCertType ≠ TlsCertType.ed448Sign) :
    tls13VerifySignatureDispatch cfg prims context TLS_SIGN_SCHEME_ED448
      buffer value = ErrorT.ERROR_INVALID_SIGNATURE := by
  unfold tls13VerifySignatureDispatch
  rw [if_neg (by rintro ⟨-, hx⟩; exact absurd hx (by decide)),
    if_neg (by rintro ⟨-, hx⟩; exact absurd hx (by decide)),
    if_neg (by rintro ⟨-, -, hx⟩; exact absurd hx (by decide))]
  by_cases hflag : cfg.eddsaSignSupport = true ∧ cfg.ed448Support = true
  · rw [if_pos ⟨hflag.1, hflag.2, rfl⟩, if_neg hcert]
  · rw [if_neg (fun hc => hflag ⟨hc.1, hc.2.1⟩)]

theorem dispatch_ed448_reject (cfg : TlsConfig) (prims : TlsPrims)
    (context : TlsContext) (buffer value : List Nat)
    (hflag1 : cfg.eddsaSignSupport = true)
    (hflag2 : cfg.ed448Support = true)
    (hcert : context.peerCertType = TlsCertType.ed448Sign)
    (hver : prims.tlsVerifyEddsaSignature buffer value = false) :
    tls13VerifySignatureDispatch cfg prims context TLS_SIGN_SCHEME_ED448
      buffer value = ErrorT.ERROR_INVALID_SIGNATURE := by
  unfold tls13VerifySignatureDispatch
  rw [if_neg (by rintro ⟨-, hx⟩; exact absurd hx (by decide)),
    if_neg (by rintro ⟨-, hx⟩; exact absurd hx (by decide)),
    if_neg (by rintro ⟨-, -, hx⟩; exact absurd hx (by decide)),
    if_pos ⟨hflag1, hflag2, rfl⟩, if_pos hcert, if_neg (by simp [hver])]

/-- The exact success condition of the CertificateVerify verification
dispatch: the claimed scheme selects a branch whose feature gates,
certificate-type/curve cross-checks, hash-registry lookup and
verification primitive all succeed. -/
def verifyDispatchAccepts (cfg : TlsConfig) (prims : TlsPrims)
    (context : TlsContext) (signAlgo : Nat) (buffer value : List Nat) :
    Prop :=
  (cfg.rsaPssSignSupport = true ∧ isRsaPssScheme signAlgo ∧
    ∃ hid h2, rsaPssVerifyHashId context.peerCertType signAlgo = some hid ∧
      prims.tlsGetHashAlgo hid = some h2 ∧
      prims.rsassaPssVerify h2 (h2.compute buffer) value = true) ∨
  (cfg.ecdsaSignSupport = true ∧ isEcdsaScheme signAlgo ∧
    ∃ hid h2, ecdsaVerifyHashId context.peerCertType
        context.peerEcParamsName signAlgo = some hid ∧
      prims.tlsGetHashAlgo hid = some h2 ∧
      prims.tlsVerifyEcdsaSignature (h2.compute buffer) value = true) ∨
  (cfg.eddsaSignSupport = true ∧ cfg.ed25519Support = true ∧
    signAlgo = TLS_SIGN_SCHEME_ED25519 ∧
    context.peerCertType = TlsCertType.ed25519Sign ∧
    prims.tlsVerifyEddsaSignature buffer value = true) ∨
  (cfg.eddsaSignSupport = true ∧ cfg.ed448Support = true ∧
    signAlgo = TLS_SIGN_SCHEME_ED448 ∧
    context.peerCertType = TlsCertType.ed448Sign ∧
    prims.tlsVerifyEddsaSignature buffer value = true)

theorem dispatch_no_error_iff (cfg : TlsConfig) (prims : TlsPrims)
    (context : TlsContext) (signAlgo : Nat) (buffer value : List Nat) :
    tls13VerifySignatureDispatch cfg prims context signAlgo buffer value =
      ErrorT.NO_ERROR ↔
    verifyDispatchAccepts cfg prims context signAlgo buffer value := by
  unfold tls13VerifySignatureDispatch verifyDispatchAccepts
  constructor
  · intro hres
    split at hres
    · rename_i hc
      split at hres
      · simp at hres
      · rename_i hid hmap
        split at hres
        · simp at hres
        · rename_i h2 hhash
          split at hres
          · rename_i hver
            exact Or.inl ⟨hc.1, hc.2, hid, h2, hmap, hhash, hver⟩
          · simp at hres
    · split at hres
      · rename_i hc
        split at hres
        · simp at hres
        · rename_i hid hmap
          split at hres
          · simp at hres
          · rename_i h2 hhash
            split at hres
            · rename_i hver
              exact Or.inr (Or.inl ⟨hc.1, hc.2, hid, h2, hmap, hhash, hver⟩)
            · simp at hres
      · split at hres
        · rename_i hc
          split at hres
          · rename_i hcert
            split at hres
            · rename_i hver
              exact Or.inr (Or.inr (Or.inl
                ⟨hc.1, hc.2.1, hc.2.2, hcert, hver⟩))
            · simp at hres
          · simp at hres
        · split at hres
          · rename_i hc
            split at hres
            · rename_i hcert
              split at hres
              · rename_i hver
                exact Or.inr (Or.inr (Or.inr
                  ⟨hc.1, hc.2.1, hc.2.2, hcert, hver⟩))
              · simp at hres
            · simp at hres
          · simp at hres
  · intro hacc
    rcases hacc with ⟨hflag, hsch, hid, h2, hmap, hhash, hver⟩ |
      ⟨hflag, hsch, hid, h2, hmap, hhash, hver⟩ |
      ⟨hf1, hf2, hsch, hcert, hver⟩ | ⟨hf1, hf2, hsch, hcert, hver⟩
    · rw [if_pos ⟨hflag, hsch⟩, hmap]
      dsimp only
      rw [hhash]
      dsimp only
      rw [if_pos hver]
    · rcases hsch with rfl | rfl | rfl
      all_goals
        rw [if_neg (by rintro ⟨-, hx⟩; exact absurd hx (by decide)),
          if_pos ⟨hflag, by decide⟩, hmap]
        dsimp only
        rw [hhash]
        dsimp only
        rw [if_pos hver]
    · subst hsch
      rw [if_neg (by rintro ⟨-, hx⟩; exact absurd hx (by decide)),
        if_neg (by rintro ⟨-, hx⟩; exact absurd hx (by decide)),
        if_pos ⟨hf1, hf2, rfl⟩, if_pos hcert, if_pos hver]
    · subst hsch
      rw [if_neg (by rintro ⟨-, hx⟩; exact absurd hx (by decide)),
        if_neg (by rintro ⟨-, hx⟩; exact absurd hx (by decide)),
        if_neg (by rintro ⟨-, -, hx⟩; exact absurd hx (by decide)),
        if_pos ⟨hf1, hf2, rfl⟩, if_pos hcert, if_pos hver]

/-- C1: `tls13VerifySignature` fails `ERROR_DECODING_FAILED` exactly when
the input is shorter than the fixed 4-byte header or its length differs
from header size plus the declared value length; once the header checks
pass (and the hash algorithm and transcript state are available), the only
outcomes are `NO_ERROR` and `ERROR_INVALID_SIGNATURE`, success occurs
exactly when the claimed scheme's branch fully cross-checks and its
primitive accepts, and every certificate-type/curve mismatch, every
scheme whose hash mapping fails, and every rejecting verification
primitive — across the RSA-PSS, ECDSA, Ed25519 and Ed448 families — is
reported as `ERROR_INVALID_SIGNATURE`. -/
theorem tls13VerifySignature_spec (cfg : TlsConfig) (prims : TlsPrims)
    (context : TlsContext) (p : List Nat) :
    (tls13VerifySignature cfg prims context p = ErrorT.ERROR_DECODING_FAILED ↔
      (p.length < 4 ∨ p.length ≠ 4 + readU16 (p.getD 2 0) (p.getD 3 0))) ∧
    (∀ hashAlgo s, context.prfHashAlgo = some hashAlgo →
      context.handshakeHashContext = some s →
      ¬(p.length < 4 ∨ p.length ≠ 4 + readU16 (p.getD 2 0) (p.getD 3 0)) →
      (tls13VerifySignature cfg prims context p = ErrorT.NO_ERROR ∨
       tls13VerifySignature cfg prims context p =
         ErrorT.ERROR_INVALID_SIGNATURE) ∧
      (tls13VerifySignature cfg prims context p = ErrorT.NO_ERROR ↔
        verifyDispatchAccepts cfg prims context
          (readU16 (p.getD 0 0) (p.getD 1 0))
          (tls13VerifyContent context.entity (hashAlgo.compute (s ++ [])))
          (p.drop 4)) ∧
      (¬(readU16 (p.getD 0 0) (p.getD 1 0) = TLS_SIGN_SCHEME_RSA_PSS_RSAE_SHA256 ∨
         readU16 (p.getD 0 0) (p.getD 1 0) = TLS_SIGN_SCHEME_RSA_PSS_RSAE_SHA384 ∨
         readU16 (p.getD 0 0) (p.getD 1 0) = TLS_SIGN_SCHEME_RSA_PSS_RSAE_SHA512 ∨
         readU16 (p.getD 0 0) (p.getD 1 0) = TLS_SIGN_SCHEME_RSA_PSS_PSS_SHA256 ∨
         readU16 (p.getD 0 0) (p.getD 1 0) = TLS_SIGN_SCHEME_RSA_PSS_PSS_SHA384 ∨
         readU16 (p.getD 0 0) (p.getD 1 0) = TLS_SIGN_SCHEME_RSA_PSS_PSS_SHA512 ∨
         readU16 (p.getD 0 0) (p.getD 1 0) = TLS_SIGN_SCHEME_ECDSA_SECP256R1_SHA256 ∨
         readU16 (p.getD 0 0) (p.getD 1 0) = TLS_SIGN_SCHEME_ECDSA_SECP384R1_SHA384 ∨
         readU16 (p.getD 0 0) (p.getD 1 0) = TLS_SIGN_SCHEME_ECDSA_SECP521R1_SHA512 ∨
         readU16 (p.getD 0 0) (p.getD 1 0) = TLS_SIGN_SCHEME_ED25519 ∨
         readU16 (p.getD 0 0) (p.getD 1 0) = TLS_SIGN_SCHEME_ED448) →
        tls13VerifySignature cfg prims context p =
          ErrorT.ERROR_INVALID_SIGNATURE) ∧
      ((readU16 (p.getD 0 0) (p.getD 1 0) = TLS_SIGN_SCHEME_RSA_PSS_RSAE_SHA256 ∨
        readU16 (p.getD 0 0) (p.getD 1 0) = TLS_SIGN_SCHEME_RSA_PSS_RSAE_SHA384 ∨
        readU16 (p.getD 0 0) (p.getD 1 0) = TLS_SIGN_SCHEME_RSA_PSS_RSAE_SHA512 ∨
        readU16 (p.getD 0 0) (p.getD 1 0) = TLS_SIGN_SCHEME_RSA_PSS_PSS_SHA256 ∨
        readU16 (p.getD 0 0) (p.getD 1 0) = TLS_SIGN_SCHEME_RSA_PSS_PSS_SHA384 ∨
        readU16 (p.getD 0 0) (p.getD 1 0) = TLS_SIGN_SCHEME_RSA_PSS_PSS_SHA512) →
        context.peerCertType ≠ TlsCertType.rsaSign →
        context.peerCertType ≠ TlsCertType.rsaPssSign →
        tls13VerifySignature cfg prims context p =
          ErrorT.ERROR_INVALID_SIGNATURE) ∧
      (∀ hid, isRsaPssScheme (readU16 (p.getD 0 0) (p.getD 1 0)) →
        rsaPssVerifyHashId context.peerCertType
          (readU16 (p.getD 0 0) (p.getD 1 0)) = some hid →
        prims.tlsGetHashAlgo hid = none →
        tls13VerifySignature cfg prims context p =
          ErrorT.ERROR_INVALID_SIGNATURE) ∧
      (∀ hid h2, isRsaPssScheme (readU16 (p.getD 0 0) (p.getD 1 0)) →
        rsaPssVerifyHashId context.peerCertType
          (readU16 (p.getD 0 0) (p.getD 1 0)) = some hid →
        prims.tlsGetHashAlgo hid = some h2 →
        prims.rsassaPssVerify h2 (h2.compute (tls13VerifyContent
          context.entity (hashAlgo.compute (s ++ [])))) (p.drop 4) = false →
        tls13VerifySignature cfg prims context p =
          ErrorT.ERROR_INVALID_SIGNATURE) ∧
      (isEcdsaScheme (readU16 (p.getD 0 0) (p.getD 1 0)) →
        context.peerCertType ≠ TlsCertType.ecdsaSign →
        tls13VerifySignature cfg prims context p =
          ErrorT.ERROR_INVALID_SIGNATURE) ∧
      (isEcdsaScheme (readU16 (p.getD 0 0) (p.getD 1 0)) →
        ecdsaVerifyHashId context.peerCertType context.peerEcParamsName
          (readU16 (p.getD 0 0) (p.getD 1 0)) = none →
        tls13VerifySignature cfg prims context p =
          ErrorT.ERROR_INVALID_SIGNATURE) ∧
      (∀ hid, isEcdsaScheme (readU16 (p.getD 0 0) (p.getD 1 0)) →
        ecdsaVerifyHashId context.peerCertType context.peerEcParamsName
          (readU16 (p.getD 0 0) (p.getD 1 0)) = some hid →
        prims.tlsGetHashAlgo hid = none →
        tls13VerifySignature cfg prims context p =
          ErrorT.ERROR_INVALID_SIGNATURE) ∧
      (∀ hid h2, isEcdsaScheme (readU16 (p.getD 0 0) (p.getD 1 0)) →
        ecdsaVerifyHashId context.peerCertType context.peerEcParamsName
          (readU16 (p.getD 0 0) (p.getD 1 0)) = some hid →
        prims.tlsGetHashAlgo hid = some h2 →
        prims.tlsVerifyEcdsaSignature (h2.compute (tls13VerifyContent
          context.entity (hashAlgo.compute (s ++ [])))) (p.drop 4) = false →
        tls13VerifySignature cfg prims context p =
          ErrorT.ERROR_INVALID_SIGNATURE) ∧
      (readU16 (p.getD 0 0) (p.getD 1 0) = TLS_SIGN_SCHEME_ED25519 →
        context.peerCertType ≠ TlsCertType.ed25519Sign →
        tls13VerifySignature cfg prims context p =
          ErrorT.ERROR_INVALID_SIGNATURE) ∧
      (readU16 (p.getD 0 0) (p.getD 1 0) = TLS_SIGN_SCHEME_ED25519 →
        cfg.eddsaSignSupport = true → cfg.ed25519Support = true →
        context.peerCertType = TlsCertType.ed25519Sign →
        prims.tlsVerifyEddsaSignature
          (tls13VerifyContent context.entity (hashAlgo.compute (s ++ [])))
          (p.drop 4) = false →
        tls13VerifySignature cfg prims context p =
          ErrorT.ERROR_INVALID_SIGNATURE) ∧
      (readU16 (p.getD 0 0) (p.getD 1 0) = TLS_SIGN_SCHEME_ED448 →
        context.peerCertType ≠ TlsCertType.ed448Sign →
        tls13VerifySignature cfg prims context p =
          ErrorT.ERROR_INVALID_SIGNATURE) ∧
      (readU16 (p.getD 0 0) (p.getD 1 0) = TLS_SIGN_SCHEME_ED448 →
        cfg.eddsaSignSupport = true → cfg.ed448Support = true →
        context.peerCertType = TlsCertType.ed448Sign →
        prims.tlsVerifyEddsaSignature
          (tls13VerifyContent context.entity (hashAlgo.compute (s ++ [])))
          (p.drop 4) = false →
        tls13VerifySignature cfg prims context p =
          ErrorT.ERROR_INVALID_SIGNATURE)) := by
  constructor
  · constructor
    · intro hres
      by_contra hbad
      push_neg at hbad
      rw [tls13VerifySignature, if_neg (by omega), if_neg (by omega)] at hres
      cases hprf : context.prfHashAlgo with
      | none => rw [hprf] at hres; simp at hres
      | some hashAlgo =>
          rw [hprf] at hres
          dsimp only at hres
          rcases finalize_cases hashAlgo context.handshakeHashContext []
            with hf | hf
          · rw [if_neg (by simp [hf])] at hres
            rcases dispatch_cases cfg prims context
              (readU16 (p.getD 0 0) (p.getD 1 0))
              (tls13VerifyContent context.entity
                (tlsFinalizeTranscriptHash hashAlgo
                  context.handshakeHashContext []).2)
              (p.drop 4) with hd | hd <;> rw [hd] at hres <;> simp at hres
          · rw [if_pos (by simp [hf]), hf] at hres
            simp at hres
    · intro hbad
      rcases hbad with hb | hb
      · rw [tls13VerifySignature, if_pos hb]
      · by_cases h4 : p.length < 4
        · rw [tls13VerifySignature, if_pos h4]
        · rw [tls13VerifySignature, if_neg h4, if_pos hb]
  · intro hashAlgo s hh hs hgood
    rw [verify_eq_dispatch cfg prims context p hashAlgo s hh hs hgood]
    refine ⟨?_, ?_, ?_, ?_, ?_, ?_, ?_, ?_, ?_, ?_, ?_, ?_, ?_, ?_⟩
    · exact dispatch_cases cfg prims context _ _ _
    · exact dispatch_no_error_iff cfg prims context _ _ _
    · intro hnot
      exact dispatch_unknown cfg prims context _ _ _ hnot
    · intro hscheme hc1 hc2
      exact dispatch_rsa_mismatch cfg prims context _ _ _ hscheme hc1 hc2
    · intro hid hscheme hmap hhash
      exact dispatch_rsa_hash_none cfg prims context _ _ _ hid hscheme
        hmap hhash
    · intro hid h2 hscheme hmap hhash hver
      exact dispatch_rsa_reject cfg prims context _ _ _ hid h2 hscheme
        hmap hhash hver
    · intro hscheme hcert
      exact dispatch_ecdsa_unmapped cfg prims context _ _ _ hscheme
        (ecdsaVerifyHashId_certMismatch context.peerCertType
          context.peerEcParamsName _ hcert)
    · intro hscheme hmap
      exact dispatch_ecdsa_unmapped cfg prims context _ _ _ hscheme hmap
    · intro hid hscheme hmap hhash
      exact dispatch_ecdsa_hash_none cfg prims context _ _ _ hid hscheme
        hmap hhash
    · intro hid h2 hscheme hmap hhash hver
      exact dispatch_ecdsa_reject cfg prims context _ _ _ hid h2 hscheme
        hmap hhash hver
    · intro hscheme hcert
      rw [hscheme]
      exact dispatch_ed25519_mismatch cfg prims context _ _ hcert
    · intro hscheme hflag1 hflag2 hcert hver
      rw [hscheme]
      exact dispatch_ed25519_reject cfg prims context _ _ hflag1 hflag2
        hcert hver
    · intro hscheme hcert
      rw [hscheme]
      exact dispatch_ed448_mismatch cfg prims context _ _ hcert
    · intro hscheme hflag1 hflag2 hcert hver
      rw [hscheme]
      exact dispatch_ed448_reject cfg prims context _ _ hflag1 hflag2
        hcert hver

/-- Witness for C1: a one-byte record fails `ERROR_DECODING_FAILED`; a
well-formed record with an unknown scheme 0 yields
`ERROR_INVALID_SIGNATURE`; a well-formed Ed25519 record against an RSA
peer certificate yields `ERROR_INVALID_SIGNATURE`; a well-formed ECDSA
record against the same RSA peer certificate yields
`ERROR_INVALID_SIGNATURE`. -/
theorem tls13VerifySignature_spec_witness :
    tls13VerifySignature cfgAll primsTest ctxBase [0] =
      ErrorT.ERROR_DECODING_FAILED ∧
    tls13VerifySignature cfgAll primsTest ctxBase [0, 0, 0, 0] =
      ErrorT.ERROR_INVALID_SIGNATURE ∧
    tls13VerifySignature cfgAll primsTest ctxBase [8, 7, 0, 1, 100] =
      ErrorT.ERROR_INVALID_SIGNATURE ∧
    tls13VerifySignature cfgAll primsTest ctxBase [4, 3, 0, 1, 7] =
      ErrorT.ERROR_INVALID_SIGNATURE :=
  ⟨(tls13VerifySignature_spec cfgAll primsTest ctxBase [0]).1.mpr
      (Or.inl (by decide)),
   ((tls13VerifySignature_spec cfgAll primsTest ctxBase [0, 0, 0, 0]).2
      testHash [5, 6] rfl rfl (by decide)).2.2.1 (by decide),
   ((tls13VerifySignature_spec cfgAll primsTest ctxBase [8, 7, 0, 1, 100]).2
      testHash [5, 6] rfl rfl (by decide)).2.2.2.2.2.2.2.2.2.2.1
      (by decide) (by decide),
   ((tls13VerifySignature_spec cfgAll primsTest ctxBase [4, 3, 0, 1, 7]).2
      testHash [5, 6] rfl rfl (by decide)).2.2.2.2.2.2.1
      (by decide) (by decide)⟩

end Tls13
